import Mathlib

/-!
Verification of the email/calendar content-extraction core of the `lego`
repository (`src/gmail/utils.py`): the calendar block parser `parse_ics`,
the body selector `extract_email_content`, the calendar attachment wrapper
`extract_email_ics` and the header decoder `decode_mime_words`.

Python strings are modelled as `List Char` and byte strings as `List Nat`
(each entry one byte). Python string operations used by the source
(`str.replace`, `str.splitlines`, `str.startswith`, `str.split(":", 1)`,
substring membership and the two `re.search` patterns of the source) are
given faithful executable models below.
-/

namespace Lego

/-- Shorthand turning a Lean string literal into the `List Char` model of a
Python string. -/
abbrev pstr (s : String) : List Char := s.data

/-- Python `s.startswith(pat)` as `startsWithL pat s`. -/
def startsWithL (pat s : List Char) : Bool :=
  match pat with
  | [] => true
  | p :: ps =>
    match s with
    | [] => false
    | c :: rest => p == c && startsWithL ps rest

/-- Python line-boundary characters: exactly the characters
`str.splitlines` treats as line ends (`\n`, `\r`, `\x0b`, `\x0c`, `\x1c`,
`\x1d`, `\x1e`, `\x85`, U+2028, U+2029). -/
def isLB (c : Char) : Bool :=
  c == '\n' || c == '\r' || c == '\x0b' || c == '\x0c' ||
  c == '\x1c' || c == '\x1d' || c == '\x1e' || c == '\x85' ||
  c == '\u2028' || c == '\u2029'

/-- Worker for `pyReplace`: a left-to-right scan; `skip` counts characters
of an already-replaced occurrence still to be dropped. -/
def pyReplaceAux (pat repl : List Char) : Nat → List Char → List Char
  | _, [] => []
  | n + 1, _ :: rest => pyReplaceAux pat repl n rest
  | 0, c :: rest =>
    if startsWithL pat (c :: rest) then
      repl ++ pyReplaceAux pat repl (pat.length - 1) rest
    else c :: pyReplaceAux pat repl 0 rest

/-- Python `str.replace(pat, repl)` for the nonempty patterns the source
uses: scan left to right, replacing non-overlapping occurrences. (For an
empty `pat` this returns `s`; the source only ever passes `"\r\n "` and
`"\n "`.) -/
def pyReplace (pat repl s : List Char) : List Char :=
  match pat with
  | [] => s
  | _ :: _ => pyReplaceAux pat repl 0 s

/-- Worker for `splitlines` on text whose `\r\n` pairs have already been
fused: cut at every single boundary character; `acc` holds the current
line reversed; a trailing fragment is kept only when nonempty. -/
def splitlinesAux (acc : List Char) : List Char → List (List Char)
  | [] => if acc = [] then [] else [acc.reverse]
  | c :: rest =>
    if isLB c then acc.reverse :: splitlinesAux [] rest
    else splitlinesAux (c :: acc) rest

/-- Python `str.splitlines()` (keepends false). Python's scanner treats a
`\r\n` pair as a single boundary; this is modelled by first fusing every
`\r\n` pair into `\n` with the same left-to-right non-overlapping scan
`str.replace` makes, then cutting at each single boundary character - an
exactly equivalent reformulation. -/
def splitlines (s : List Char) : List (List Char) :=
  splitlinesAux [] (pyReplace (pstr "\r\n") (pstr "\n") s)

/-- Python substring membership `pat in s`. -/
def containsSub (pat : List Char) : List Char → Bool
  | [] => startsWithL pat []
  | c :: rest => startsWithL pat (c :: rest) || containsSub pat rest

/-- Characters after the first occurrence of `pat` in `s`, or `none` when
`pat` does not occur: the semantics of `re.search(r"<pat>(.*)", s).group(1)`
for a line without line breaks (the `.*` is greedy, so the capture runs to
the end of the line). -/
def afterSub (pat : List Char) : List Char → Option (List Char)
  | [] => if startsWithL pat [] then some [] else none
  | c :: rest =>
    if startsWithL pat (c :: rest) then some ((c :: rest).drop pat.length)
    else afterSub pat rest

/-- Characters strictly before the first `':'` or `';'`, or `none` when
neither occurs. -/
def takeToColonSemi : List Char → Option (List Char)
  | [] => none
  | c :: rest =>
    if c = ':' || c = ';' then some []
    else (takeToColonSemi rest).map (c :: ·)

/-- The email captured by `re.search(r"mailto:(.*)", line)`: everything
after the first occurrence of `mailto:`, to the end of the line. -/
def mailtoMatch (line : List Char) : Option (List Char) :=
  afterSub (pstr "mailto:") line

/-- The name captured by `re.search(r"CN=(.*?)(:|;)", line)`: the match
starts at the first occurrence of `CN=` and the lazy group runs to the next
`':'` or `';'`; when no `':'` or `';'` follows any `CN=` there is no match
(a later `CN=` sees a subset of the remaining characters, so trying the
first occurrence alone is faithful to the leftmost-match rule). -/
def cnMatch (line : List Char) : Option (List Char) :=
  (afterSub (pstr "CN=") line).bind takeToColonSemi

/-- Python `line.split(":", 1)[1]`: the characters after the first `':'`,
or `none` when the line has no `':'` (Python would raise `IndexError`;
every call site in the source is guarded by a `startswith` whose pattern
contains `':'`). -/
def pySplit1Tail : List Char → Option (List Char)
  | [] => none
  | c :: rest => if c = ':' then some rest else pySplit1Tail rest

/-- Total wrapper for `line.split(":", 1)[1]` used by the main (unchecked)
parser; `parse_ics_never_fails_and_defaults` proves the guarded calls never
hit the `none` case. -/
def afterColon (line : List Char) : List Char := (pySplit1Tail line).getD []

/-- One attendee record appended by the `ATTENDEE` rule of `parse_ics`. -/
structure Attendee where
  name : List Char
  email : List Char
deriving DecidableEq

/-- The dictionary built by `parse_ics` (`src/gmail/utils.py` 280-289). -/
structure ParsedData where
  summary : List Char
  datetime_start : List Char
  datetime_end : List Char
  tzid : List Char
  organizer_name : List Char
  organizer_email : List Char
  attendees : List Attendee
  ics_file : List Char
deriving DecidableEq

/-- The per-call loop state of `parse_ics`: the three flags, the Python
local variable `tzid` (as `tzvar`: `none` models `'tzid' not in locals()`)
and the dictionary under construction. -/
structure ParseState where
  in_event : Bool
  in_alarm : Bool
  in_timezone : Bool
  tzvar : Option (List Char)
  data : ParsedData
deriving DecidableEq

/-- The BEGIN/END elif chain at the top of the loop body of `parse_ics`
(`src/gmail/utils.py` 292-304); `END:VEVENT` also commits the pending
timezone id (`tzid if 'tzid' in locals() else ""`). -/
def applyTransitions (st : ParseState) (line : List Char) : ParseState :=
  if startsWithL (pstr "BEGIN:VTIMEZONE") line then { st with in_timezone := true }
  else if startsWithL (pstr "END:VTIMEZONE") line then { st with in_timezone := false }
  else if startsWithL (pstr "BEGIN:VEVENT") line then { st with in_event := true }
  else if startsWithL (pstr "END:VEVENT") line then
    { st with in_event := false, data := { st.data with tzid := st.tzvar.getD [] } }
  else if startsWithL (pstr "BEGIN:VALARM") line then { st with in_alarm := true }
  else if startsWithL (pstr "END:VALARM") line then { st with in_alarm := false }
  else st

/-- The timezone-id capture (`src/gmail/utils.py` 306-307): a separate `if`
evaluated after the transition chain, on the updated flags. -/
def applyTzid (st : ParseState) (line : List Char) : ParseState :=
  if st.in_timezone && startsWithL (pstr "TZID:") line then
    { st with tzvar := some (afterColon line) }
  else st

/-- The event-level field elif chain (`src/gmail/utils.py` 310-322), run
only when `in_event and not in_alarm`: SUMMARY/DTSTART/DTEND take the text
after the first colon; a line containing `ORGANIZER` is scanned with the
two regex patterns and a failed pattern stores the empty string. -/
def captureFields (st : ParseState) (line : List Char) : ParseState :=
  if startsWithL (pstr "SUMMARY:") line then
    { st with data := { st.data with summary := afterColon line } }
  else if startsWithL (pstr "DTSTART:") line then
    { st with data := { st.data with datetime_start := afterColon line } }
  else if startsWithL (pstr "DTEND:") line then
    { st with data := { st.data with datetime_end := afterColon line } }
  else if containsSub (pstr "ORGANIZER") line then
    { st with data := { st.data with
        organizer_email := (mailtoMatch line).getD [],
        organizer_name := (cnMatch line).getD [] } }
  else st

/-- Guard of the field elif chain (`src/gmail/utils.py` 309). -/
def applyFields (st : ParseState) (line : List Char) : ParseState :=
  if st.in_event && !st.in_alarm then captureFields st line else st

/-- The attendee rule (`src/gmail/utils.py` 323-331): any line containing
`ATTENDEE` outside an alarm appends one `{name, email}` record, with no
`in_event` guard. -/
def applyAttendee (st : ParseState) (line : List Char) : ParseState :=
  if containsSub (pstr "ATTENDEE") line && !st.in_alarm then
    { st with data := { st.data with attendees := st.data.attendees ++
        [{ name := (cnMatch line).getD [], email := (mailtoMatch line).getD [] }] } }
  else st

/-- One iteration of the `for line in lines` loop of `parse_ics`: the
transition chain, then the three independent `if` statements, each seeing
the flags as already updated by the ones before it. -/
def processLine (st : ParseState) (line : List Char) : ParseState :=
  applyAttendee (applyFields (applyTzid (applyTransitions st line) line) line) line

/-- Line unfolding plus splitting of `parse_ics` (`src/gmail/utils.py`
276): `content.replace("\r\n ", "").replace("\n ", "").splitlines()`. -/
def icsLines (content : List Char) : List (List Char) :=
  splitlines (pyReplace (pstr "\n ") [] (pyReplace (pstr "\r\n ") [] content))

/-- The freshly initialised dictionary of `parse_ics`, `ics_file` holding
the original content verbatim. -/
def initData (content : List Char) : ParsedData :=
  { summary := [], datetime_start := [], datetime_end := [], tzid := []
    organizer_name := [], organizer_email := [], attendees := []
    ics_file := content }

/-- The state at the top of the loop of `parse_ics`. -/
def initState (content : List Char) : ParseState :=
  { in_event := false, in_alarm := false, in_timezone := false
    tzvar := none, data := initData content }

/-- The nested function `parse_ics` of `extract_email_ics`
(`src/gmail/utils.py` 242-333). -/
def parse_ics (content : List Char) : ParsedData :=
  ((icsLines content).foldl processLine (initState content)).data

/-! Checked variant of the parser: the only partial Python operation in the
loop body is `line.split(":", 1)[1]`, which raises `IndexError` when the
line holds no `':'`. The checked stages return `none` exactly where the
Python code would raise; `parse_ics_never_fails_and_defaults` proves the
checked run always returns `some` of the total parser's record. -/

/-- Checked timezone capture: `none` models a raised `IndexError`. -/
def applyTzidChecked (st : ParseState) (line : List Char) : Option ParseState :=
  if st.in_timezone && startsWithL (pstr "TZID:") line then
    (pySplit1Tail line).map fun v => { st with tzvar := some v }
  else some st

/-- Checked field elif chain: `none` models a raised `IndexError`. -/
def captureFieldsChecked (st : ParseState) (line : List Char) : Option ParseState :=
  if startsWithL (pstr "SUMMARY:") line then
    (pySplit1Tail line).map fun v => { st with data := { st.data with summary := v } }
  else if startsWithL (pstr "DTSTART:") line then
    (pySplit1Tail line).map fun v => { st with data := { st.data with datetime_start := v } }
  else if startsWithL (pstr "DTEND:") line then
    (pySplit1Tail line).map fun v => { st with data := { st.data with datetime_end := v } }
  else if containsSub (pstr "ORGANIZER") line then
    some { st with data := { st.data with
        organizer_email := (mailtoMatch line).getD [],
        organizer_name := (cnMatch line).getD [] } }
  else some st

/-- Checked guard of the field elif chain. -/
def applyFieldsChecked (st : ParseState) (line : List Char) : Option ParseState :=
  if st.in_event && !st.in_alarm then captureFieldsChecked st line else some st

/-- Checked loop body: a raised exception in any stage aborts the call. -/
def processLineChecked (st : ParseState) (line : List Char) : Option ParseState :=
  (applyTzidChecked (applyTransitions st line) line).bind fun st2 =>
    (applyFieldsChecked st2 line).map fun st3 => applyAttendee st3 line

/-- Checked `parse_ics`: `none` would mean an uncaught exception escaped. -/
def parse_icsChecked (content : List Char) : Option ParsedData :=
  ((icsLines content).foldlM processLineChecked (initState content)).map ParseState.data

/-! Model of the MIME-message side (`extract_email_content` and
`extract_email_ics`, `src/gmail/utils.py` 183-344). A message is either
multipart - modelled by the list of parts its `walk()` yields, nested
multiparts flattened in document order - or single-part. -/

/-- One part yielded by `mime_msg.walk()`: `content_type` is
`part.get_content_type()`; `payload` the raw bytes returned by
`part.get_payload(decode=True)`; `decodedText` models the result of
`payload.decode(charset, errors="replace")` - kept abstract because
charset decoding is Python stdlib - where `none` models a decode step that
raises (for example a missing payload), which `extract_email_content`
catches and logs. -/
structure MimePart where
  content_type : List Char
  payload : List Nat
  decodedText : Option (List Char)
deriving DecidableEq

/-- A MIME message as the two code paths of the source see it. -/
inductive MimeMsg where
  | multipart (parts : List MimePart)
  | single (content_type : List Char) (decodedText : List Char)
deriving DecidableEq

/-- Python truthiness of the `text_content`/`html_content` locals of
`extract_email_content`: `None` and the empty string are falsy. -/
def isTruthy : Option (List Char) → Bool
  | none => false
  | some s => !s.isEmpty

/-- The `for part in mime_msg.walk()` loop of `extract_email_content`
(`src/gmail/utils.py` 196-216): `t`/`h` are the `text_content` and
`html_content` locals; a part of a wanted type is consulted only when the
current candidate is falsy (`not text_content`), and a decode that raises
is caught, leaving the candidate unchanged. -/
def scanContent : List MimePart → Option (List Char) → Option (List Char) →
    Option (List Char) × Option (List Char)
  | [], t, h => (t, h)
  | p :: rest, t, h =>
    if p.content_type = pstr "text/plain" && !(isTruthy t) then
      match p.decodedText with
      | some s => scanContent rest (some s) h
      | none => scanContent rest t h
    else if p.content_type = pstr "text/html" && !(isTruthy h) then
      match p.decodedText with
      | some s => scanContent rest t (some s)
      | none => scanContent rest t h
    else scanContent rest t h

/-- The function `extract_email_content` (`src/gmail/utils.py` 183-228).
The final line is `text_content if text_content is not None else
html_content` - an `is not None` test, not a truthiness test. -/
def extract_email_content : MimeMsg → Option (List Char)
  | .multipart parts =>
    match scanContent parts none none with
    | (some t, _) => some t
    | (none, h) => h
  | .single ctype decoded =>
    if ctype = pstr "text/plain" then some decoded
    else if ctype = pstr "text/html" then some decoded
    else none

/-- The decoded text of the first part of content type `ct` whose decode
step succeeds (parts whose decode raises are skipped). Spec-side helper
used to state the corrected C7. -/
def firstDecodedOf (ct : List Char) : List MimePart → Option (List Char)
  | [] => none
  | p :: rest =>
    if p.content_type = ct then
      match p.decodedText with
      | some s => some s
      | none => firstDecodedOf ct rest
    else firstDecodedOf ct rest

/-- Left-biased choice on optional strings (spec-side helper: `a` if
present, else `b`). -/
def orO (a b : Option (List Char)) : Option (List Char) :=
  match a with
  | some x => some x
  | none => b

/-- Result of `extract_email_ics`: a parsed record, the error dictionary
`{"Error": msg}` or `None`. -/
inductive IcsResult where
  | event (e : ParsedData)
  | decodeError (msg : List Char)
  | absent
deriving DecidableEq

/-- Whether a byte is a UTF-8 continuation byte. -/
def isCont (b : Nat) : Bool := 0x80 ≤ b && b ≤ 0xBF

/-- Strict UTF-8 decoding of a byte list, as Python's
`bytes.decode("utf-8")`: `none` models a raised `UnicodeDecodeError`
(overlong forms, surrogates and out-of-range code points rejected). -/
def utf8Decode : List Nat → Option (List Char)
  | [] => some []
  | b :: rest =>
    if b ≤ 0x7F then (utf8Decode rest).map (Char.ofNat b :: ·)
    else if 0xC2 ≤ b ∧ b ≤ 0xDF then
      match rest with
      | c1 :: rest2 =>
        if isCont c1 then
          (utf8Decode rest2).map
            (Char.ofNat ((b - 0xC0) * 0x40 + (c1 - 0x80)) :: ·)
        else none
      | [] => none
    else if b = 0xE0 then
      match rest with
      | c1 :: c2 :: rest2 =>
        if (0xA0 ≤ c1 ∧ c1 ≤ 0xBF) ∧ isCont c2 = true then
          (utf8Decode rest2).map
            (Char.ofNat ((b - 0xE0) * 0x1000 + (c1 - 0x80) * 0x40 + (c2 - 0x80)) :: ·)
        else none
      | _ => none
    else if 0xE1 ≤ b ∧ b ≤ 0xEC then
      match rest with
      | c1 :: c2 :: rest2 =>
        if isCont c1 = true ∧ isCont c2 = true then
          (utf8Decode rest2).map
            (Char.ofNat ((b - 0xE0) * 0x1000 + (c1 - 0x80) * 0x40 + (c2 - 0x80)) :: ·)
        else none
      | _ => none
    else if b = 0xED then
      match rest with
      | c1 :: c2 :: rest2 =>
        if (0x80 ≤ c1 ∧ c1 ≤ 0x9F) ∧ isCont c2 = true then
          (utf8Decode rest2).map
            (Char.ofNat ((b - 0xE0) * 0x1000 + (c1 - 0x80) * 0x40 + (c2 - 0x80)) :: ·)
        else none
      | _ => none
    else if 0xEE ≤ b ∧ b ≤ 0xEF then
      match rest with
      | c1 :: c2 :: rest2 =>
        if isCont c1 = true ∧ isCont c2 = true then
          (utf8Decode rest2).map
            (Char.ofNat ((b - 0xE0) * 0x1000 + (c1 - 0x80) * 0x40 + (c2 - 0x80)) :: ·)
        else none
      | _ => none
    else if b = 0xF0 then
      match rest with
      | c1 :: c2 :: c3 :: rest2 =>
        if (0x90 ≤ c1 ∧ c1 ≤ 0xBF) ∧ isCont c2 = true ∧ isCont c3 = true then
          (utf8Decode rest2).map
            (Char.ofNat ((b - 0xF0) * 0x40000 + (c1 - 0x80) * 0x1000
              + (c2 - 0x80) * 0x40 + (c3 - 0x80)) :: ·)
        else none
      | _ => none
    else if 0xF1 ≤ b ∧ b ≤ 0xF3 then
      match rest with
      | c1 :: c2 :: c3 :: rest2 =>
        if isCont c1 = true ∧ isCont c2 = true ∧ isCont c3 = true then
          (utf8Decode rest2).map
            (Char.ofNat ((b - 0xF0) * 0x40000 + (c1 - 0x80) * 0x1000
              + (c2 - 0x80) * 0x40 + (c3 - 0x80)) :: ·)
        else none
      | _ => none
    else if b = 0xF4 then
      match rest with
      | c1 :: c2 :: c3 :: rest2 =>
        if (0x80 ≤ c1 ∧ c1 ≤ 0x8F) ∧ isCont c2 = true ∧ isCont c3 = true then
          (utf8Decode rest2).map
            (Char.ofNat ((b - 0xF0) * 0x40000 + (c1 - 0x80) * 0x1000
              + (c2 - 0x80) * 0x40 + (c3 - 0x80)) :: ·)
        else none
      | _ => none
    else none

/-- The `for part in mime_msg.walk()` loop of `extract_email_ics`
(`src/gmail/utils.py` 335-344): the first `text/calendar` part returns
immediately - parsed on a successful strict UTF-8 decode, the fixed error
dictionary on `UnicodeDecodeError`. -/
def scanCalendar : List MimePart → IcsResult
  | [] => .absent
  | p :: rest =>
    if p.content_type = pstr "text/calendar" then
      match utf8Decode p.payload with
      | some text => .event (parse_ics text)
      | none => .decodeError (pstr "Error decoding .ics file content")
    else scanCalendar rest

/-- The function `extract_email_ics` (`src/gmail/utils.py` 231-344): only
multipart messages are scanned; a non-multipart message yields `None`
whatever its content type. -/
def extract_email_ics : MimeMsg → IcsResult
  | .multipart parts => scanCalendar parts
  | .single _ _ => .absent

/-! Model of the header decoder `decode_mime_words`
(`src/gmail/utils.py` 161-181). `email.header.decode_header` (Python
stdlib) splits the header into tokens; the source then evaluates
`word.decode(charset or "utf-8") if charset else str(word)` per token and
joins the results with single spaces. `bytes.decode` is modelled by the
`codec` parameter: `codec cs b = none` models a raised `LookupError`
(unrecognized charset) or `UnicodeDecodeError` (invalid bytes) - the
defaults are strict, the source passes no `errors="replace"`. -/

/-- One `(word, charset)` token of `header.decode_header`: a literal text
token (charset `None`) or an encoded-word's bytes with charset. -/
inductive HeaderToken where
  | plain (s : List Char)
  | encoded (b : List Nat) (charset : List Char)
deriving DecidableEq

/-- The per-token expression of the source's generator:
`word.decode(charset or "utf-8") if charset else str(word)`; when the
charset is present it is used as is (the `or "utf-8"` default is dead in
that branch), with no exception handling around the decode. -/
def decodeToken (codec : List Char → List Nat → Option (List Char)) :
    HeaderToken → Option (List Char)
  | .plain s => some s
  | .encoded b cs => codec cs b

/-- The function `decode_mime_words`: decode every token and join with
single spaces; a decode failure propagates (the whole call raises). -/
def decode_mime_words (codec : List Char → List Nat → Option (List Char))
    (toks : List HeaderToken) : Option (List Char) :=
  (toks.mapM (decodeToken codec)).map (List.intercalate [' '])

/-- Document built from logical lines, each terminated by CRLF. -/
def joinCRLF : List (List Char) → List Char
  | [] => []
  | l :: ls => l ++ '\r' :: '\n' :: joinCRLF ls

/-- The same lines terminated by a lone LF (the image of `joinCRLF` under
the `\r\n` fusion step of `splitlines`). -/
def joinLF : List (List Char) → List Char
  | [] => []
  | l :: ls => l ++ '\n' :: joinLF ls

/-- A line with no Python line-boundary character in it. -/
abbrev noLB (l : List Char) : Prop := ∀ c ∈ l, isLB c = false

/-- A line that does not begin with a space (so that the CRLF before it is
not an iCalendar fold). -/
abbrev headNS (l : List Char) : Prop := l.head? ≠ some ' '

/-! Generic lemmas about the Python string models, used to evaluate the
parser symbolically on documents that contain variable segments. -/

theorem exists_append_of_startsWithL {xs ys : List Char}
    (h : startsWithL xs ys = true) : ∃ t, ys = xs ++ t := by
  induction xs generalizing ys with
  | nil => exact ⟨ys, rfl⟩
  | cons a as ih =>
    cases ys with
    | nil => simp [startsWithL] at h
    | cons b bs =>
      simp only [startsWithL, Bool.and_eq_true, beq_iff_eq] at h
      obtain ⟨t, ht⟩ := ih h.2
      exact ⟨t, by rw [h.1, List.cons_append, ht]⟩

theorem containsSub_append_right (pat xs ys : List Char) (hne : pat ≠ [])
    (h : ∀ c ∈ xs, ¬ pat.head? = some c) :
    containsSub pat (xs ++ ys) = containsSub pat ys := by
  induction xs with
  | nil => rfl
  | cons c xs ih =>
    have hpre : startsWithL pat (c :: (xs ++ ys)) = false := by
      cases pat with
      | nil => exact absurd rfl hne
      | cons p ps =>
        have hpc : p ≠ c := fun hpc => h c (List.mem_cons_self _ _) (by simp [hpc])
        show (p == c && startsWithL ps (xs ++ ys)) = false
        rw [beq_eq_false_iff_ne.mpr hpc, Bool.false_and]
    rw [List.cons_append]
    show (startsWithL pat (c :: (xs ++ ys)) || containsSub pat (xs ++ ys)) = _
    rw [hpre, Bool.false_or]
    exact ih fun d hd => h d (List.mem_cons_of_mem c hd)

theorem containsSub_eq_false (pat xs : List Char) (hne : pat ≠ [])
    (h : ∀ c ∈ xs, ¬ pat.head? = some c) : containsSub pat xs = false := by
  have h2 := containsSub_append_right pat xs [] hne h
  rw [List.append_nil] at h2
  rw [h2]
  cases pat with
  | nil => exact absurd rfl hne
  | cons p ps => rfl

theorem afterSub_append_right (pat xs ys : List Char) (hne : pat ≠ [])
    (h : ∀ c ∈ xs, ¬ pat.head? = some c) :
    afterSub pat (xs ++ ys) = afterSub pat ys := by
  induction xs with
  | nil => rfl
  | cons c xs ih =>
    have hpre : startsWithL pat (c :: (xs ++ ys)) = false := by
      cases pat with
      | nil => exact absurd rfl hne
      | cons p ps =>
        have hpc : p ≠ c := fun hpc => h c (List.mem_cons_self _ _) (by simp [hpc])
        show (p == c && startsWithL ps (xs ++ ys)) = false
        rw [beq_eq_false_iff_ne.mpr hpc, Bool.false_and]
    rw [List.cons_append]
    show (if startsWithL pat (c :: (xs ++ ys)) = true then _ else afterSub pat (xs ++ ys)) = _
    rw [hpre]
    simp only [Bool.false_eq_true, if_false]
    exact ih fun d hd => h d (List.mem_cons_of_mem c hd)

theorem takeToColonSemi_append (xs ys : List Char)
    (h : ∀ c ∈ xs, c ≠ ':' ∧ c ≠ ';') :
    takeToColonSemi (xs ++ ys) = (takeToColonSemi ys).map (xs ++ ·) := by
  induction xs with
  | nil =>
    rw [List.nil_append]
    cases takeToColonSemi ys <;> rfl
  | cons c xs ih =>
    have hc := h c (List.mem_cons_self _ _)
    rw [List.cons_append]
    show (if (decide (c = ':') || decide (c = ';')) = true then _
      else (takeToColonSemi (xs ++ ys)).map (c :: ·)) = _
    rw [decide_eq_false hc.1, decide_eq_false hc.2]
    simp only [Bool.or_self, Bool.false_eq_true, if_false]
    rw [ih fun d hd => h d (List.mem_cons_of_mem c hd)]
    cases takeToColonSemi ys <;> simp

theorem pySplit1Tail_append (xs ys : List Char) (h : ∀ c ∈ xs, c ≠ ':') :
    pySplit1Tail (xs ++ (':' :: ys)) = some ys := by
  induction xs with
  | nil => rfl
  | cons c xs ih =>
    have hc := h c (List.mem_cons_self _ _)
    rw [List.cons_append]
    show (if c = ':' then some (xs ++ ':' :: ys) else pySplit1Tail (xs ++ ':' :: ys)) = _
    rw [if_neg hc]
    exact ih fun d hd => h d (List.mem_cons_of_mem c hd)

theorem pyReplaceAux_eq_self (pat repl s : List Char)
    (h : containsSub pat s = false) : pyReplaceAux pat repl 0 s = s := by
  induction s with
  | nil => rfl
  | cons c rest ih =>
    have hor : (startsWithL pat (c :: rest) || containsSub pat rest) = false := h
    rw [Bool.or_eq_false_iff] at hor
    show (if startsWithL pat (c :: rest) = true then _
      else c :: pyReplaceAux pat repl 0 rest) = _
    rw [hor.1]
    simp only [Bool.false_eq_true, if_false]
    rw [ih hor.2]

theorem pyReplace_eq_self (pat repl s : List Char)
    (h : containsSub pat s = false) : pyReplace pat repl s = s := by
  cases pat with
  | nil => rfl
  | cons p ps => exact pyReplaceAux_eq_self (p :: ps) repl s h

theorem pyReplaceAux_append (pat repl xs ys : List Char) (hne : pat ≠ [])
    (h : ∀ c ∈ xs, ¬ pat.head? = some c) :
    pyReplaceAux pat repl 0 (xs ++ ys) = xs ++ pyReplaceAux pat repl 0 ys := by
  induction xs with
  | nil => rfl
  | cons c xs ih =>
    have hpre : startsWithL pat (c :: (xs ++ ys)) = false := by
      cases pat with
      | nil => exact absurd rfl hne
      | cons p ps =>
        have hpc : p ≠ c := fun hpc => h c (List.mem_cons_self _ _) (by simp [hpc])
        show (p == c && startsWithL ps (xs ++ ys)) = false
        rw [beq_eq_false_iff_ne.mpr hpc, Bool.false_and]
    rw [List.cons_append]
    show (if startsWithL pat (c :: (xs ++ ys)) = true then _
      else c :: pyReplaceAux pat repl 0 (xs ++ ys)) = _
    rw [hpre]
    simp only [Bool.false_eq_true, if_false]
    rw [ih fun d hd => h d (List.mem_cons_of_mem c hd), List.cons_append]

theorem splitlinesAux_append (l : List Char) (acc rest : List Char)
    (h : ∀ c ∈ l, isLB c = false) :
    splitlinesAux acc (l ++ '\n' :: rest)
      = (acc.reverse ++ l) :: splitlinesAux [] rest := by
  induction l generalizing acc with
  | nil =>
    rw [List.nil_append, List.append_nil]
    rfl
  | cons c l ih =>
    have hc := h c (List.mem_cons_self _ _)
    rw [List.cons_append]
    show (if isLB c = true then _ else splitlinesAux (c :: acc) (l ++ '\n' :: rest)) = _
    rw [hc]
    simp only [Bool.false_eq_true, if_false]
    rw [ih _ fun d hd => h d (List.mem_cons_of_mem c hd)]
    simp

theorem headNS_cons {c : Char} {xs : List Char} (h : c ≠ ' ') : headNS (c :: xs) := by
  simp only [List.head?_cons, ne_eq, Option.some.injEq]
  exact h

theorem noLB_append {xs ys : List Char} (h1 : noLB xs) (h2 : noLB ys) :
    noLB (xs ++ ys) := by
  intro c hc
  rcases List.mem_append.mp hc with h | h
  exacts [h1 c h, h2 c h]

theorem noLB_cons {c : Char} {xs : List Char} (h1 : isLB c = false)
    (h2 : noLB xs) : noLB (c :: xs) := by
  intro d hd
  rcases List.mem_cons.mp hd with rfl | h
  exacts [h1, h2 d h]

theorem notMem_of_noLB {l : List Char} {c : Char} (h : noLB l)
    (hc : isLB c = true) : c ∉ l := fun hm => by rw [h c hm] at hc; cases hc

theorem head_notMem_aux (pat : List Char) (c : Char) (xs : List Char)
    (hp : pat.head? = some c) (h : c ∉ xs) :
    ∀ d ∈ xs, ¬ pat.head? = some d := by
  intro d hd heq
  rw [hp] at heq
  injection heq with heq
  exact h (heq ▸ hd)

theorem spacePrefix_joinCRLF (ls : List (List Char))
    (h : ∀ l ∈ ls, headNS l) :
    startsWithL [' '] (joinCRLF ls) = false := by
  cases ls with
  | nil => rfl
  | cons l ls =>
    cases l with
    | nil => rfl
    | cons c l =>
      have hc : c ≠ ' ' :=
        fun hceq => h (c :: l) (List.mem_cons_self _ _) (by rw [hceq]; rfl)
      show ((' ' == c) && startsWithL [] (l ++ '\r' :: '\n' :: joinCRLF ls)) = false
      rw [beq_eq_false_iff_ne.mpr (Ne.symm hc), Bool.false_and]

theorem fold_crlf_joinCRLF (ls : List (List Char))
    (h1 : ∀ l ∈ ls, noLB l) (h2 : ∀ l ∈ ls, headNS l) :
    containsSub (pstr "\r\n ") (joinCRLF ls) = false := by
  induction ls with
  | nil => rfl
  | cons l ls ih =>
    show containsSub (pstr "\r\n ") (l ++ '\r' :: '\n' :: joinCRLF ls) = false
    rw [containsSub_append_right (pstr "\r\n ") l ('\r' :: '\n' :: joinCRLF ls) (by decide)
      (head_notMem_aux (pstr "\r\n ") '\r' l (by decide)
        (notMem_of_noLB (h1 l (List.mem_cons_self _ _)) (by decide)))]
    show (startsWithL [' '] (joinCRLF ls)
      || containsSub (pstr "\r\n ") (joinCRLF ls)) = false
    rw [spacePrefix_joinCRLF ls fun l hl => h2 l (List.mem_cons_of_mem _ hl),
      ih (fun l hl => h1 l (List.mem_cons_of_mem _ hl))
        (fun l hl => h2 l (List.mem_cons_of_mem _ hl))]
    rfl

theorem fold_lf_joinCRLF (ls : List (List Char))
    (h1 : ∀ l ∈ ls, noLB l) (h2 : ∀ l ∈ ls, headNS l) :
    containsSub (pstr "\n ") (joinCRLF ls) = false := by
  induction ls with
  | nil => rfl
  | cons l ls ih =>
    show containsSub (pstr "\n ") (l ++ '\r' :: '\n' :: joinCRLF ls) = false
    rw [containsSub_append_right (pstr "\n ") l ('\r' :: '\n' :: joinCRLF ls) (by decide)
      (head_notMem_aux (pstr "\n ") '\n' l (by decide)
        (notMem_of_noLB (h1 l (List.mem_cons_self _ _)) (by decide)))]
    show (startsWithL [' '] (joinCRLF ls)
      || containsSub (pstr "\n ") (joinCRLF ls)) = false
    rw [spacePrefix_joinCRLF ls fun l hl => h2 l (List.mem_cons_of_mem _ hl),
      ih (fun l hl => h1 l (List.mem_cons_of_mem _ hl))
        (fun l hl => h2 l (List.mem_cons_of_mem _ hl))]
    rfl

theorem pyReplace_crlf_joinCRLF (ls : List (List Char))
    (h1 : ∀ l ∈ ls, noLB l) :
    pyReplace (pstr "\r\n") (pstr "\n") (joinCRLF ls) = joinLF ls := by
  show pyReplaceAux (pstr "\r\n") (pstr "\n") 0 (joinCRLF ls) = joinLF ls
  induction ls with
  | nil => rfl
  | cons l ls ih =>
    show pyReplaceAux (pstr "\r\n") (pstr "\n") 0 (l ++ '\r' :: '\n' :: joinCRLF ls) = _
    rw [pyReplaceAux_append (pstr "\r\n") (pstr "\n") l ('\r' :: '\n' :: joinCRLF ls) (by decide)
      (head_notMem_aux (pstr "\r\n") '\r' l (by decide)
        (notMem_of_noLB (h1 l (List.mem_cons_self _ _)) (by decide)))]
    rw [show pyReplaceAux (pstr "\r\n") (pstr "\n") 0 ('\r' :: '\n' :: joinCRLF ls)
      = '\n' :: pyReplaceAux (pstr "\r\n") (pstr "\n") 0 (joinCRLF ls) from rfl]
    rw [ih fun l hl => h1 l (List.mem_cons_of_mem _ hl)]
    rfl

theorem splitlines_joinCRLF (ls : List (List Char))
    (h : ∀ l ∈ ls, noLB l) : splitlines (joinCRLF ls) = ls := by
  unfold splitlines
  rw [pyReplace_crlf_joinCRLF ls h]
  induction ls with
  | nil => rfl
  | cons l ls ih =>
    show splitlinesAux [] (l ++ '\n' :: joinLF ls) = l :: ls
    rw [splitlinesAux_append l [] _ (h l (List.mem_cons_self _ _))]
    rw [ih fun l hl => h l (List.mem_cons_of_mem _ hl)]
    simp

/-- On a document of well-formed CRLF-terminated lines (no stray line
boundaries inside a line, no line starting with a space) the unfold-and-
split step of `parse_ics` returns exactly those lines. -/
theorem icsLines_joinCRLF (ls : List (List Char))
    (h1 : ∀ l ∈ ls, noLB l) (h2 : ∀ l ∈ ls, headNS l) :
    icsLines (joinCRLF ls) = ls := by
  unfold icsLines
  rw [pyReplace_eq_self _ _ _ (fold_crlf_joinCRLF ls h1 h2),
    pyReplace_eq_self _ _ _ (fold_lf_joinCRLF ls h1 h2)]
  exact splitlines_joinCRLF ls h1

/-! Stage no-op lemmas: each `if` of the loop body leaves the state alone
when its guard is down. -/

theorem applyTzid_not_tzid (st : ParseState) (line : List Char)
    (h : startsWithL (pstr "TZID:") line = false) : applyTzid st line = st := by
  unfold applyTzid
  rw [h]
  simp

theorem applyFields_inAlarm (st : ParseState) (line : List Char)
    (h : st.in_alarm = true) : applyFields st line = st := by
  unfold applyFields
  rw [h]
  simp

theorem applyFields_noEvent (st : ParseState) (line : List Char)
    (h : st.in_event = false) : applyFields st line = st := by
  unfold applyFields
  rw [h]
  simp

theorem applyAttendee_not_att (st : ParseState) (line : List Char)
    (h : containsSub (pstr "ATTENDEE") line = false) : applyAttendee st line = st := by
  unfold applyAttendee
  rw [h]
  simp

theorem applyAttendee_inAlarm (st : ParseState) (line : List Char)
    (h : st.in_alarm = true) : applyAttendee st line = st := by
  unfold applyAttendee
  rw [h]
  simp

/-! Per-line evaluation lemmas for the line shapes the claim documents
use. States are written as literals so the lemmas chain by rewriting. -/

theorem step_begin_vevent (e a t : Bool) (z : Option (List Char)) (d : ParsedData) :
    processLine ⟨e, a, t, z, d⟩ (pstr "BEGIN:VEVENT") = ⟨true, a, t, z, d⟩ := by
  cases a <;> cases t <;> rfl

theorem step_end_vevent (e a t : Bool) (z : Option (List Char)) (d : ParsedData) :
    processLine ⟨e, a, t, z, d⟩ (pstr "END:VEVENT")
      = ⟨false, a, t, z, { d with tzid := z.getD [] }⟩ := by
  cases t <;> rfl

theorem step_begin_valarm (e a t : Bool) (z : Option (List Char)) (d : ParsedData) :
    processLine ⟨e, a, t, z, d⟩ (pstr "BEGIN:VALARM") = ⟨e, true, t, z, d⟩ := by
  cases e <;> cases t <;> rfl

theorem step_end_valarm (e a t : Bool) (z : Option (List Char)) (d : ParsedData) :
    processLine ⟨e, a, t, z, d⟩ (pstr "END:VALARM") = ⟨e, false, t, z, d⟩ := by
  cases e <;> cases t <;> rfl

theorem step_summary (t : Bool) (z : Option (List Char)) (d : ParsedData)
    (m : List Char) (hA : containsSub (pstr "ATTENDEE") m = false) :
    processLine ⟨true, false, t, z, d⟩ (pstr "SUMMARY:" ++ m)
      = ⟨true, false, t, z, { d with summary := m }⟩ := by
  have h1 : containsSub (pstr "ATTENDEE") (pstr "SUMMARY:" ++ m) = false := hA
  unfold processLine
  rw [applyAttendee_not_att _ _ h1]
  cases t <;> rfl

theorem step_summary_alarm (e t : Bool) (z : Option (List Char)) (d : ParsedData)
    (r : List Char) :
    processLine ⟨e, true, t, z, d⟩ (pstr "SUMMARY:" ++ r) = ⟨e, true, t, z, d⟩ := by
  unfold processLine
  rw [show applyTransitions ⟨e, true, t, z, d⟩ (pstr "SUMMARY:" ++ r)
    = ⟨e, true, t, z, d⟩ from rfl]
  rw [applyTzid_not_tzid _ (pstr "SUMMARY:" ++ r) rfl]
  rw [applyFields_inAlarm _ _ rfl]
  rw [applyAttendee_inAlarm _ _ rfl]

theorem step_dtstart (t : Bool) (z : Option (List Char)) (d : ParsedData)
    (v : List Char) (hA : containsSub (pstr "ATTENDEE") v = false) :
    processLine ⟨true, false, t, z, d⟩ (pstr "DTSTART:" ++ v)
      = ⟨true, false, t, z, { d with datetime_start := v }⟩ := by
  have h1 : containsSub (pstr "ATTENDEE") (pstr "DTSTART:" ++ v) = false := hA
  unfold processLine
  rw [applyAttendee_not_att _ _ h1]
  cases t <;> rfl

/-- A `DTSTART;<params>:<value>` line inside an event is not captured by
any rule: `line.startswith("DTSTART:")` is false because of the `';'`. -/
theorem step_dtstart_params (t : Bool) (z : Option (List Char)) (d : ParsedData)
    (p v : List Char)
    (hA : containsSub (pstr "ATTENDEE") (p ++ (':' :: v)) = false)
    (hO : containsSub (pstr "ORGANIZER") (p ++ (':' :: v)) = false) :
    processLine ⟨true, false, t, z, d⟩ (pstr "DTSTART;" ++ (p ++ (':' :: v)))
      = ⟨true, false, t, z, d⟩ := by
  have h1 : containsSub (pstr "ATTENDEE") (pstr "DTSTART;" ++ (p ++ (':' :: v))) = false := hA
  have h2 : containsSub (pstr "ORGANIZER") (pstr "DTSTART;" ++ (p ++ (':' :: v))) = false := hO
  unfold processLine
  rw [applyAttendee_not_att _ _ h1]
  rw [show applyTransitions ⟨true, false, t, z, d⟩ (pstr "DTSTART;" ++ (p ++ (':' :: v)))
    = ⟨true, false, t, z, d⟩ from rfl]
  rw [applyTzid_not_tzid _ (pstr "DTSTART;" ++ (p ++ (':' :: v))) rfl]
  rw [show applyFields ⟨true, false, t, z, d⟩ (pstr "DTSTART;" ++ (p ++ (':' :: v)))
    = captureFields ⟨true, false, t, z, d⟩ (pstr "DTSTART;" ++ (p ++ (':' :: v))) from rfl]
  unfold captureFields
  rw [h2]
  rfl

theorem step_dtend (t : Bool) (z : Option (List Char)) (d : ParsedData)
    (v : List Char) (hA : containsSub (pstr "ATTENDEE") v = false) :
    processLine ⟨true, false, t, z, d⟩ (pstr "DTEND:" ++ v)
      = ⟨true, false, t, z, { d with datetime_end := v }⟩ := by
  have h1 : containsSub (pstr "ATTENDEE") (pstr "DTEND:" ++ v) = false := hA
  unfold processLine
  rw [applyAttendee_not_att _ _ h1]
  cases t <;> rfl

/-- A `DTEND;<params>:<value>` line inside an event is not captured by
any rule: `line.startswith("DTEND:")` is false because of the `';'`. -/
theorem step_dtend_params (t : Bool) (z : Option (List Char)) (d : ParsedData)
    (p v : List Char)
    (hA : containsSub (pstr "ATTENDEE") (p ++ (':' :: v)) = false)
    (hO : containsSub (pstr "ORGANIZER") (p ++ (':' :: v)) = false) :
    processLine ⟨true, false, t, z, d⟩ (pstr "DTEND;" ++ (p ++ (':' :: v)))
      = ⟨true, false, t, z, d⟩ := by
  have h1 : containsSub (pstr "ATTENDEE") (pstr "DTEND;" ++ (p ++ (':' :: v))) = false := hA
  have h2 : containsSub (pstr "ORGANIZER") (pstr "DTEND;" ++ (p ++ (':' :: v))) = false := hO
  unfold processLine
  rw [applyAttendee_not_att _ _ h1]
  rw [show applyTransitions ⟨true, false, t, z, d⟩ (pstr "DTEND;" ++ (p ++ (':' :: v)))
    = ⟨true, false, t, z, d⟩ from rfl]
  rw [applyTzid_not_tzid _ (pstr "DTEND;" ++ (p ++ (':' :: v))) rfl]
  rw [show applyFields ⟨true, false, t, z, d⟩ (pstr "DTEND;" ++ (p ++ (':' :: v)))
    = captureFields ⟨true, false, t, z, d⟩ (pstr "DTEND;" ++ (p ++ (':' :: v))) from rfl]
  unfold captureFields
  rw [h2]
  rfl

theorem step_attendee (e t : Bool) (z : Option (List Char)) (d : ParsedData)
    (n aa : List Char)
    (hn1 : ∀ c ∈ n, c ≠ ':' ∧ c ≠ ';') (hn2 : 'm' ∉ n)
    (hO : containsSub (pstr "ORGANIZER") (n ++ (':' :: (pstr "mailto:" ++ aa))) = false) :
    processLine ⟨e, false, t, z, d⟩
        (pstr "ATTENDEE;CN=" ++ (n ++ (':' :: (pstr "mailto:" ++ aa))))
      = ⟨e, false, t, z, { d with attendees := d.attendees ++ [⟨n, aa⟩] }⟩ := by
  have hm : mailtoMatch (pstr "ATTENDEE;CN=" ++ (n ++ (':' :: (pstr "mailto:" ++ aa))))
      = some aa := by
    show afterSub (pstr "mailto:") (n ++ (':' :: (pstr "mailto:" ++ aa))) = some aa
    rw [afterSub_append_right (pstr "mailto:") n (':' :: (pstr "mailto:" ++ aa)) (by decide)
      (head_notMem_aux (pstr "mailto:") 'm' n (by decide) hn2)]
    rfl
  have hcn : cnMatch (pstr "ATTENDEE;CN=" ++ (n ++ (':' :: (pstr "mailto:" ++ aa))))
      = some n := by
    show takeToColonSemi (n ++ (':' :: (pstr "mailto:" ++ aa))) = some n
    rw [takeToColonSemi_append n (':' :: (pstr "mailto:" ++ aa)) hn1]
    rw [show takeToColonSemi (':' :: (pstr "mailto:" ++ aa)) = some [] from rfl]
    simp
  have hOrg : containsSub (pstr "ORGANIZER")
      (pstr "ATTENDEE;CN=" ++ (n ++ (':' :: (pstr "mailto:" ++ aa)))) = false := hO
  unfold processLine
  rw [show applyTransitions ⟨e, false, t, z, d⟩
    (pstr "ATTENDEE;CN=" ++ (n ++ (':' :: (pstr "mailto:" ++ aa))))
    = ⟨e, false, t, z, d⟩ from rfl]
  rw [applyTzid_not_tzid _ (pstr "ATTENDEE;CN=" ++ (n ++ (':' :: (pstr "mailto:" ++ aa)))) rfl]
  have hf : applyFields ⟨e, false, t, z, d⟩
      (pstr "ATTENDEE;CN=" ++ (n ++ (':' :: (pstr "mailto:" ++ aa))))
      = ⟨e, false, t, z, d⟩ := by
    cases e with
    | false => exact applyFields_noEvent _ _ rfl
    | true =>
      rw [show applyFields ⟨true, false, t, z, d⟩
        (pstr "ATTENDEE;CN=" ++ (n ++ (':' :: (pstr "mailto:" ++ aa))))
        = captureFields ⟨true, false, t, z, d⟩
          (pstr "ATTENDEE;CN=" ++ (n ++ (':' :: (pstr "mailto:" ++ aa)))) from rfl]
      unfold captureFields
      rw [hOrg]
      rfl
  rw [hf]
  unfold applyAttendee
  rw [show containsSub (pstr "ATTENDEE")
    (pstr "ATTENDEE;CN=" ++ (n ++ (':' :: (pstr "mailto:" ++ aa)))) = true from rfl]
  rw [hm, hcn]
  rfl

/-- An `ORGANIZER;CN=<name>:mailto:<email>` line inside an event: both
patterns match, so both organizer fields are overwritten. -/
theorem step_organizer (t : Bool) (z : Option (List Char)) (d : ParsedData)
    (n em : List Char)
    (hn1 : ∀ c ∈ n, c ≠ ':' ∧ c ≠ ';') (hn2 : 'm' ∉ n)
    (hA : containsSub (pstr "ATTENDEE") (n ++ (':' :: (pstr "mailto:" ++ em))) = false) :
    processLine ⟨true, false, t, z, d⟩
        (pstr "ORGANIZER;CN=" ++ (n ++ (':' :: (pstr "mailto:" ++ em))))
      = ⟨true, false, t, z,
          { d with organizer_email := em, organizer_name := n }⟩ := by
  have hm : mailtoMatch (pstr "ORGANIZER;CN=" ++ (n ++ (':' :: (pstr "mailto:" ++ em))))
      = some em := by
    show afterSub (pstr "mailto:") (n ++ (':' :: (pstr "mailto:" ++ em))) = some em
    rw [afterSub_append_right (pstr "mailto:") n (':' :: (pstr "mailto:" ++ em)) (by decide)
      (head_notMem_aux (pstr "mailto:") 'm' n (by decide) hn2)]
    rfl
  have hcn : cnMatch (pstr "ORGANIZER;CN=" ++ (n ++ (':' :: (pstr "mailto:" ++ em))))
      = some n := by
    show takeToColonSemi (n ++ (':' :: (pstr "mailto:" ++ em))) = some n
    rw [takeToColonSemi_append n (':' :: (pstr "mailto:" ++ em)) hn1]
    rw [show takeToColonSemi (':' :: (pstr "mailto:" ++ em)) = some [] from rfl]
    simp
  have hAtt : containsSub (pstr "ATTENDEE")
      (pstr "ORGANIZER;CN=" ++ (n ++ (':' :: (pstr "mailto:" ++ em)))) = false := hA
  unfold processLine
  rw [applyAttendee_not_att _ _ hAtt]
  rw [show applyTransitions ⟨true, false, t, z, d⟩
    (pstr "ORGANIZER;CN=" ++ (n ++ (':' :: (pstr "mailto:" ++ em))))
    = ⟨true, false, t, z, d⟩ from rfl]
  rw [applyTzid_not_tzid _ (pstr "ORGANIZER;CN=" ++ (n ++ (':' :: (pstr "mailto:" ++ em)))) rfl]
  rw [show applyFields ⟨true, false, t, z, d⟩
    (pstr "ORGANIZER;CN=" ++ (n ++ (':' :: (pstr "mailto:" ++ em))))
    = captureFields ⟨true, false, t, z, d⟩
      (pstr "ORGANIZER;CN=" ++ (n ++ (':' :: (pstr "mailto:" ++ em)))) from rfl]
  unfold captureFields
  rw [show containsSub (pstr "ORGANIZER")
    (pstr "ORGANIZER;CN=" ++ (n ++ (':' :: (pstr "mailto:" ++ em)))) = true from rfl]
  rw [hm, hcn]
  rfl

/-- An event-level line containing `ORGANIZER` on which both regex
patterns fail: both organizer fields are overwritten with the empty
string, whatever they held before. -/
theorem step_organizer_bare (t : Bool) (z : Option (List Char)) (d : ParsedData)
    (x : List Char) (hx1 : 'm' ∉ x) (hx2 : 'C' ∉ x)
    (hA : containsSub (pstr "ATTENDEE") x = false) :
    processLine ⟨true, false, t, z, d⟩ (pstr "ORGANIZER:" ++ x)
      = ⟨true, false, t, z,
          { d with organizer_email := [], organizer_name := [] }⟩ := by
  have hm : mailtoMatch (pstr "ORGANIZER:" ++ x) = none := by
    show afterSub (pstr "mailto:") x = none
    have h2 := afterSub_append_right (pstr "mailto:") x [] (by decide)
      (head_notMem_aux (pstr "mailto:") 'm' x (by decide) hx1)
    rw [List.append_nil] at h2
    rw [h2]
    rfl
  have hcn : cnMatch (pstr "ORGANIZER:" ++ x) = none := by
    show (afterSub (pstr "CN=") x).bind takeToColonSemi = none
    have h2 := afterSub_append_right (pstr "CN=") x [] (by decide)
      (head_notMem_aux (pstr "CN=") 'C' x (by decide) hx2)
    rw [List.append_nil] at h2
    rw [h2]
    rfl
  have hAtt : containsSub (pstr "ATTENDEE") (pstr "ORGANIZER:" ++ x) = false := hA
  unfold processLine
  rw [applyAttendee_not_att _ _ hAtt]
  rw [show applyTransitions ⟨true, false, t, z, d⟩ (pstr "ORGANIZER:" ++ x)
    = ⟨true, false, t, z, d⟩ from rfl]
  rw [applyTzid_not_tzid _ (pstr "ORGANIZER:" ++ x) rfl]
  rw [show applyFields ⟨true, false, t, z, d⟩ (pstr "ORGANIZER:" ++ x)
    = captureFields ⟨true, false, t, z, d⟩ (pstr "ORGANIZER:" ++ x) from rfl]
  unfold captureFields
  rw [show containsSub (pstr "ORGANIZER") (pstr "ORGANIZER:" ++ x) = true from rfl]
  rw [hm, hcn]
  rfl

/-- An event-level `ORGANIZER:mailto:<email>` line without `CN=`: the
mailto pattern matches and overwrites the email, the CN pattern fails and
overwrites the name with the empty string - the two are independent. -/
theorem step_organizer_mailto (t : Bool) (z : Option (List Char)) (d : ParsedData)
    (em : List Char) (hx2 : 'C' ∉ em)
    (hA : containsSub (pstr "ATTENDEE") em = false) :
    processLine ⟨true, false, t, z, d⟩ (pstr "ORGANIZER:mailto:" ++ em)
      = ⟨true, false, t, z,
          { d with organizer_email := em, organizer_name := [] }⟩ := by
  have hm : mailtoMatch (pstr "ORGANIZER:mailto:" ++ em) = some em := rfl
  have hcn : cnMatch (pstr "ORGANIZER:mailto:" ++ em) = none := by
    show (afterSub (pstr "CN=") em).bind takeToColonSemi = none
    have h2 := afterSub_append_right (pstr "CN=") em [] (by decide)
      (head_notMem_aux (pstr "CN=") 'C' em (by decide) hx2)
    rw [List.append_nil] at h2
    rw [h2]
    rfl
  have hAtt : containsSub (pstr "ATTENDEE") (pstr "ORGANIZER:mailto:" ++ em) = false := hA
  unfold processLine
  rw [applyAttendee_not_att _ _ hAtt]
  rw [show applyTransitions ⟨true, false, t, z, d⟩ (pstr "ORGANIZER:mailto:" ++ em)
    = ⟨true, false, t, z, d⟩ from rfl]
  rw [applyTzid_not_tzid _ (pstr "ORGANIZER:mailto:" ++ em) rfl]
  rw [show applyFields ⟨true, false, t, z, d⟩ (pstr "ORGANIZER:mailto:" ++ em)
    = captureFields ⟨true, false, t, z, d⟩ (pstr "ORGANIZER:mailto:" ++ em) from rfl]
  unfold captureFields
  rw [show containsSub (pstr "ORGANIZER") (pstr "ORGANIZER:mailto:" ++ em) = true from rfl]
  rw [hm, hcn]
  rfl

theorem applyTransitions_ics_file (st : ParseState) (line : List Char) :
    (applyTransitions st line).data.ics_file = st.data.ics_file := by
  unfold applyTransitions
  repeat' split
  all_goals rfl

theorem applyTzid_ics_file (st : ParseState) (line : List Char) :
    (applyTzid st line).data.ics_file = st.data.ics_file := by
  unfold applyTzid
  split <;> rfl

theorem captureFields_ics_file (st : ParseState) (line : List Char) :
    (captureFields st line).data.ics_file = st.data.ics_file := by
  unfold captureFields
  repeat' split
  all_goals rfl

theorem applyFields_ics_file (st : ParseState) (line : List Char) :
    (applyFields st line).data.ics_file = st.data.ics_file := by
  unfold applyFields
  split
  · exact captureFields_ics_file st line
  · rfl

theorem applyAttendee_ics_file (st : ParseState) (line : List Char) :
    (applyAttendee st line).data.ics_file = st.data.ics_file := by
  unfold applyAttendee
  split <;> rfl

theorem processLine_ics_file (st : ParseState) (line : List Char) :
    (processLine st line).data.ics_file = st.data.ics_file := by
  unfold processLine
  rw [applyAttendee_ics_file, applyFields_ics_file, applyTzid_ics_file,
    applyTransitions_ics_file]

theorem foldl_processLine_ics_file (ls : List (List Char)) (st : ParseState) :
    (ls.foldl processLine st).data.ics_file = st.data.ics_file := by
  induction ls generalizing st with
  | nil => rfl
  | cons l ls ih => rw [List.foldl_cons, ih, processLine_ics_file]

/-- C1. For every input text, the record returned by `parse_ics` carries
the original text verbatim in its `ics_file` field: the field is set to
`content` before the loop and no loop step touches it, even though parsing
works on the unfolded, split copy of the lines. -/
theorem parse_ics_ics_file_roundtrip (content : List Char) :
    (parse_ics content).ics_file = content := by
  unfold parse_ics
  rw [foldl_processLine_ics_file]
  rfl

/-- C2. Alarm isolation: in a document whose VEVENT block carries an
event-level `SUMMARY:` line and whose nested VALARM block carries its own
`SUMMARY:` line, the parsed summary is the event-level value: SUMMARY is
captured only while inside an event and not inside an alarm, whatever the
alarm text is. (`m` and `r` range over all line bodies without
line-boundary characters; `m` must not itself contain `ATTENDEE`.) -/
theorem parse_ics_alarm_isolation (m r : List Char)
    (hm : noLB m) (hr : noLB r)
    (hAm : containsSub (pstr "ATTENDEE") m = false) :
    (parse_ics (joinCRLF
      [pstr "BEGIN:VEVENT",
       pstr "SUMMARY:" ++ m,
       pstr "BEGIN:VALARM",
       pstr "SUMMARY:" ++ r,
       pstr "END:VALARM",
       pstr "END:VEVENT"])).summary = m := by
  have h1 : ∀ l ∈ [pstr "BEGIN:VEVENT", pstr "SUMMARY:" ++ m, pstr "BEGIN:VALARM",
      pstr "SUMMARY:" ++ r, pstr "END:VALARM", pstr "END:VEVENT"], noLB l := by
    intro l hl
    simp only [List.mem_cons, List.not_mem_nil, or_false] at hl
    rcases hl with rfl | rfl | rfl | rfl | rfl | rfl
    · decide
    · exact noLB_append (by decide) hm
    · decide
    · exact noLB_append (by decide) hr
    · decide
    · decide
  have h2 : ∀ l ∈ [pstr "BEGIN:VEVENT", pstr "SUMMARY:" ++ m, pstr "BEGIN:VALARM",
      pstr "SUMMARY:" ++ r, pstr "END:VALARM", pstr "END:VEVENT"], headNS l := by
    intro l hl
    simp only [List.mem_cons, List.not_mem_nil, or_false] at hl
    rcases hl with rfl | rfl | rfl | rfl | rfl | rfl
    all_goals first
    | decide
    | exact headNS_cons (by decide)
  unfold parse_ics
  rw [icsLines_joinCRLF _ h1 h2]
  rw [show initState (joinCRLF
      [pstr "BEGIN:VEVENT", pstr "SUMMARY:" ++ m, pstr "BEGIN:VALARM",
       pstr "SUMMARY:" ++ r, pstr "END:VALARM", pstr "END:VEVENT"])
    = ⟨false, false, false, none, initData (joinCRLF
      [pstr "BEGIN:VEVENT", pstr "SUMMARY:" ++ m, pstr "BEGIN:VALARM",
       pstr "SUMMARY:" ++ r, pstr "END:VALARM", pstr "END:VEVENT"])⟩ from rfl]
  simp only [List.foldl_cons, List.foldl_nil]
  rw [step_begin_vevent, step_summary _ _ _ _ hAm, step_begin_valarm,
    step_summary_alarm, step_end_valarm, step_end_vevent]

/-- Witness for C2 at the spec's example, with an event summary containing
a space. -/
theorem parse_ics_alarm_isolation_witness :
    (parse_ics (joinCRLF
      [pstr "BEGIN:VEVENT",
       pstr "SUMMARY:" ++ pstr "Team Meeting",
       pstr "BEGIN:VALARM",
       pstr "SUMMARY:" ++ pstr "Reminder",
       pstr "END:VALARM",
       pstr "END:VEVENT"])).summary = pstr "Team Meeting" :=
  parse_ics_alarm_isolation (pstr "Team Meeting") (pstr "Reminder")
    (by decide) (by decide) (by decide)

/-- C3. Multi-event behaviour: with a top-level ATTENDEE line before two
sequential VEVENT blocks, each holding SUMMARY, DTSTART and ATTENDEE
lines, the scalar fields end with the second block's values (the final
matching line wins) while `attendees` holds one entry per ATTENDEE line of
the whole document - the top-level one included - in document order. -/
theorem parse_ics_multi_event (s1 s2 d1 d2 n0 a0 n1 a1 n2 a2 : List Char)
    (hs1 : noLB s1) (hs2 : noLB s2) (hd1 : noLB d1) (hd2 : noLB d2)
    (hn0 : noLB n0) (ha0 : noLB a0) (hn1 : noLB n1) (ha1 : noLB a1)
    (hn2 : noLB n2) (ha2 : noLB a2)
    (hAs1 : containsSub (pstr "ATTENDEE") s1 = false)
    (hAs2 : containsSub (pstr "ATTENDEE") s2 = false)
    (hAd1 : containsSub (pstr "ATTENDEE") d1 = false)
    (hAd2 : containsSub (pstr "ATTENDEE") d2 = false)
    (hn0c : ∀ c ∈ n0, c ≠ ':' ∧ c ≠ ';') (hn0m : 'm' ∉ n0)
    (hO0 : containsSub (pstr "ORGANIZER") (n0 ++ (':' :: (pstr "mailto:" ++ a0))) = false)
    (hn1c : ∀ c ∈ n1, c ≠ ':' ∧ c ≠ ';') (hn1m : 'm' ∉ n1)
    (hO1 : containsSub (pstr "ORGANIZER") (n1 ++ (':' :: (pstr "mailto:" ++ a1))) = false)
    (hn2c : ∀ c ∈ n2, c ≠ ':' ∧ c ≠ ';') (hn2m : 'm' ∉ n2)
    (hO2 : containsSub (pstr "ORGANIZER") (n2 ++ (':' :: (pstr "mailto:" ++ a2))) = false) :
    (parse_ics (joinCRLF
      [pstr "ATTENDEE;CN=" ++ (n0 ++ (':' :: (pstr "mailto:" ++ a0))),
       pstr "BEGIN:VEVENT",
       pstr "SUMMARY:" ++ s1,
       pstr "DTSTART:" ++ d1,
       pstr "ATTENDEE;CN=" ++ (n1 ++ (':' :: (pstr "mailto:" ++ a1))),
       pstr "END:VEVENT",
       pstr "BEGIN:VEVENT",
       pstr "SUMMARY:" ++ s2,
       pstr "DTSTART:" ++ d2,
       pstr "ATTENDEE;CN=" ++ (n2 ++ (':' :: (pstr "mailto:" ++ a2))),
       pstr "END:VEVENT"])).summary = s2
    ∧ (parse_ics (joinCRLF
      [pstr "ATTENDEE;CN=" ++ (n0 ++ (':' :: (pstr "mailto:" ++ a0))),
       pstr "BEGIN:VEVENT",
       pstr "SUMMARY:" ++ s1,
       pstr "DTSTART:" ++ d1,
       pstr "ATTENDEE;CN=" ++ (n1 ++ (':' :: (pstr "mailto:" ++ a1))),
       pstr "END:VEVENT",
       pstr "BEGIN:VEVENT",
       pstr "SUMMARY:" ++ s2,
       pstr "DTSTART:" ++ d2,
       pstr "ATTENDEE;CN=" ++ (n2 ++ (':' :: (pstr "mailto:" ++ a2))),
       pstr "END:VEVENT"])).datetime_start = d2
    ∧ (parse_ics (joinCRLF
      [pstr "ATTENDEE;CN=" ++ (n0 ++ (':' :: (pstr "mailto:" ++ a0))),
       pstr "BEGIN:VEVENT",
       pstr "SUMMARY:" ++ s1,
       pstr "DTSTART:" ++ d1,
       pstr "ATTENDEE;CN=" ++ (n1 ++ (':' :: (pstr "mailto:" ++ a1))),
       pstr "END:VEVENT",
       pstr "BEGIN:VEVENT",
       pstr "SUMMARY:" ++ s2,
       pstr "DTSTART:" ++ d2,
       pstr "ATTENDEE;CN=" ++ (n2 ++ (':' :: (pstr "mailto:" ++ a2))),
       pstr "END:VEVENT"])).attendees = [⟨n0, a0⟩, ⟨n1, a1⟩, ⟨n2, a2⟩] := by
  have h1 : ∀ l ∈ [pstr "ATTENDEE;CN=" ++ (n0 ++ (':' :: (pstr "mailto:" ++ a0))),
      pstr "BEGIN:VEVENT", pstr "SUMMARY:" ++ s1, pstr "DTSTART:" ++ d1,
      pstr "ATTENDEE;CN=" ++ (n1 ++ (':' :: (pstr "mailto:" ++ a1))),
      pstr "END:VEVENT", pstr "BEGIN:VEVENT", pstr "SUMMARY:" ++ s2,
      pstr "DTSTART:" ++ d2,
      pstr "ATTENDEE;CN=" ++ (n2 ++ (':' :: (pstr "mailto:" ++ a2))),
      pstr "END:VEVENT"], noLB l := by
    intro l hl
    simp only [List.mem_cons, List.not_mem_nil, or_false] at hl
    rcases hl with rfl | rfl | rfl | rfl | rfl | rfl | rfl | rfl | rfl | rfl | rfl
    · exact noLB_append (by decide)
        (noLB_append hn0 (noLB_cons (by decide) (noLB_append (by decide) ha0)))
    · decide
    · exact noLB_append (by decide) hs1
    · exact noLB_append (by decide) hd1
    · exact noLB_append (by decide)
        (noLB_append hn1 (noLB_cons (by decide) (noLB_append (by decide) ha1)))
    · decide
    · decide
    · exact noLB_append (by decide) hs2
    · exact noLB_append (by decide) hd2
    · exact noLB_append (by decide)
        (noLB_append hn2 (noLB_cons (by decide) (noLB_append (by decide) ha2)))
    · decide
  have h2 : ∀ l ∈ [pstr "ATTENDEE;CN=" ++ (n0 ++ (':' :: (pstr "mailto:" ++ a0))),
      pstr "BEGIN:VEVENT", pstr "SUMMARY:" ++ s1, pstr "DTSTART:" ++ d1,
      pstr "ATTENDEE;CN=" ++ (n1 ++ (':' :: (pstr "mailto:" ++ a1))),
      pstr "END:VEVENT", pstr "BEGIN:VEVENT", pstr "SUMMARY:" ++ s2,
      pstr "DTSTART:" ++ d2,
      pstr "ATTENDEE;CN=" ++ (n2 ++ (':' :: (pstr "mailto:" ++ a2))),
      pstr "END:VEVENT"], headNS l := by
    intro l hl
    simp only [List.mem_cons, List.not_mem_nil, or_false] at hl
    rcases hl with rfl | rfl | rfl | rfl | rfl | rfl | rfl | rfl | rfl | rfl | rfl
    all_goals first
    | decide
    | exact headNS_cons (by decide)
  refine ?_
  have key : (parse_ics (joinCRLF
      [pstr "ATTENDEE;CN=" ++ (n0 ++ (':' :: (pstr "mailto:" ++ a0))),
       pstr "BEGIN:VEVENT", pstr "SUMMARY:" ++ s1, pstr "DTSTART:" ++ d1,
       pstr "ATTENDEE;CN=" ++ (n1 ++ (':' :: (pstr "mailto:" ++ a1))),
       pstr "END:VEVENT", pstr "BEGIN:VEVENT", pstr "SUMMARY:" ++ s2,
       pstr "DTSTART:" ++ d2,
       pstr "ATTENDEE;CN=" ++ (n2 ++ (':' :: (pstr "mailto:" ++ a2))),
       pstr "END:VEVENT"]))
      = { summary := s2, datetime_start := d2, datetime_end := [], tzid := []
          organizer_name := [], organizer_email := []
          attendees := [⟨n0, a0⟩, ⟨n1, a1⟩, ⟨n2, a2⟩]
          ics_file := joinCRLF
            [pstr "ATTENDEE;CN=" ++ (n0 ++ (':' :: (pstr "mailto:" ++ a0))),
             pstr "BEGIN:VEVENT", pstr "SUMMARY:" ++ s1, pstr "DTSTART:" ++ d1,
             pstr "ATTENDEE;CN=" ++ (n1 ++ (':' :: (pstr "mailto:" ++ a1))),
             pstr "END:VEVENT", pstr "BEGIN:VEVENT", pstr "SUMMARY:" ++ s2,
             pstr "DTSTART:" ++ d2,
             pstr "ATTENDEE;CN=" ++ (n2 ++ (':' :: (pstr "mailto:" ++ a2))),
             pstr "END:VEVENT"] } := by
    unfold parse_ics
    rw [icsLines_joinCRLF _ h1 h2]
    rw [show initState (joinCRLF
        [pstr "ATTENDEE;CN=" ++ (n0 ++ (':' :: (pstr "mailto:" ++ a0))),
         pstr "BEGIN:VEVENT", pstr "SUMMARY:" ++ s1, pstr "DTSTART:" ++ d1,
         pstr "ATTENDEE;CN=" ++ (n1 ++ (':' :: (pstr "mailto:" ++ a1))),
         pstr "END:VEVENT", pstr "BEGIN:VEVENT", pstr "SUMMARY:" ++ s2,
         pstr "DTSTART:" ++ d2,
         pstr "ATTENDEE;CN=" ++ (n2 ++ (':' :: (pstr "mailto:" ++ a2))),
         pstr "END:VEVENT"])
      = ⟨false, false, false, none, initData (joinCRLF
        [pstr "ATTENDEE;CN=" ++ (n0 ++ (':' :: (pstr "mailto:" ++ a0))),
         pstr "BEGIN:VEVENT", pstr "SUMMARY:" ++ s1, pstr "DTSTART:" ++ d1,
         pstr "ATTENDEE;CN=" ++ (n1 ++ (':' :: (pstr "mailto:" ++ a1))),
         pstr "END:VEVENT", pstr "BEGIN:VEVENT", pstr "SUMMARY:" ++ s2,
         pstr "DTSTART:" ++ d2,
         pstr "ATTENDEE;CN=" ++ (n2 ++ (':' :: (pstr "mailto:" ++ a2))),
         pstr "END:VEVENT"])⟩ from rfl]
    rw [List.foldl_cons, step_attendee _ _ _ _ _ _ hn0c hn0m hO0]
    rw [List.foldl_cons, step_begin_vevent]
    rw [List.foldl_cons, step_summary _ _ _ _ hAs1]
    rw [List.foldl_cons, step_dtstart _ _ _ _ hAd1]
    rw [List.foldl_cons, step_attendee _ _ _ _ _ _ hn1c hn1m hO1]
    rw [List.foldl_cons, step_end_vevent]
    rw [List.foldl_cons, step_begin_vevent]
    rw [List.foldl_cons, step_summary _ _ _ _ hAs2]
    rw [List.foldl_cons, step_dtstart _ _ _ _ hAd2]
    rw [List.foldl_cons, step_attendee _ _ _ _ _ _ hn2c hn2m hO2]
    rw [List.foldl_cons, step_end_vevent]
    rw [List.foldl_nil]
    rfl
  rw [key]
  exact ⟨rfl, rfl, rfl⟩

/-- Witness for C3 on a concrete two-event document whose winning summary
and final attendee CN both contain spaces. -/
theorem parse_ics_multi_event_witness :
    (parse_ics (joinCRLF
      [pstr "ATTENDEE;CN=" ++ (pstr "Out" ++ (':' :: (pstr "mailto:" ++ pstr "out@w"))),
       pstr "BEGIN:VEVENT",
       pstr "SUMMARY:" ++ pstr "First",
       pstr "DTSTART:" ++ pstr "20240101T090000",
       pstr "ATTENDEE;CN=" ++ (pstr "Bob" ++ (':' :: (pstr "mailto:" ++ pstr "bob@y"))),
       pstr "END:VEVENT",
       pstr "BEGIN:VEVENT",
       pstr "SUMMARY:" ++ pstr "Second Meeting",
       pstr "DTSTART:" ++ pstr "20240202T100000",
       pstr "ATTENDEE;CN=" ++ (pstr "Jane Doe" ++ (':' :: (pstr "mailto:" ++ pstr "jane@z"))),
       pstr "END:VEVENT"])).summary = pstr "Second Meeting"
    ∧ (parse_ics (joinCRLF
      [pstr "ATTENDEE;CN=" ++ (pstr "Out" ++ (':' :: (pstr "mailto:" ++ pstr "out@w"))),
       pstr "BEGIN:VEVENT",
       pstr "SUMMARY:" ++ pstr "First",
       pstr "DTSTART:" ++ pstr "20240101T090000",
       pstr "ATTENDEE;CN=" ++ (pstr "Bob" ++ (':' :: (pstr "mailto:" ++ pstr "bob@y"))),
       pstr "END:VEVENT",
       pstr "BEGIN:VEVENT",
       pstr "SUMMARY:" ++ pstr "Second Meeting",
       pstr "DTSTART:" ++ pstr "20240202T100000",
       pstr "ATTENDEE;CN=" ++ (pstr "Jane Doe" ++ (':' :: (pstr "mailto:" ++ pstr "jane@z"))),
       pstr "END:VEVENT"])).datetime_start = pstr "20240202T100000"
    ∧ (parse_ics (joinCRLF
      [pstr "ATTENDEE;CN=" ++ (pstr "Out" ++ (':' :: (pstr "mailto:" ++ pstr "out@w"))),
       pstr "BEGIN:VEVENT",
       pstr "SUMMARY:" ++ pstr "First",
       pstr "DTSTART:" ++ pstr "20240101T090000",
       pstr "ATTENDEE;CN=" ++ (pstr "Bob" ++ (':' :: (pstr "mailto:" ++ pstr "bob@y"))),
       pstr "END:VEVENT",
       pstr "BEGIN:VEVENT",
       pstr "SUMMARY:" ++ pstr "Second Meeting",
       pstr "DTSTART:" ++ pstr "20240202T100000",
       pstr "ATTENDEE;CN=" ++ (pstr "Jane Doe" ++ (':' :: (pstr "mailto:" ++ pstr "jane@z"))),
       pstr "END:VEVENT"])).attendees
        = [⟨pstr "Out", pstr "out@w"⟩, ⟨pstr "Bob", pstr "bob@y"⟩,
           ⟨pstr "Jane Doe", pstr "jane@z"⟩] :=
  parse_ics_multi_event (pstr "First") (pstr "Second Meeting")
    (pstr "20240101T090000") (pstr "20240202T100000")
    (pstr "Out") (pstr "out@w") (pstr "Bob") (pstr "bob@y") (pstr "Jane Doe") (pstr "jane@z")
    (by decide) (by decide) (by decide) (by decide) (by decide) (by decide)
    (by decide) (by decide) (by decide) (by decide) (by decide) (by decide)
    (by decide) (by decide) (by decide) (by decide) (by decide) (by decide)
    (by decide) (by decide) (by decide) (by decide) (by decide)

/-- Counterexample to C4 as stated: on the event-level line
`DTSTART;TZID=X:20240101T100000` the parser does not capture the text
after the first colon - it captures nothing at all, because
`line.startswith("DTSTART:")` is false for a line that continues with
`';'` after `DTSTART`. -/
theorem parse_ics_dtstart_params_cex :
    (parse_ics (pstr "BEGIN:VEVENT\r\nDTSTART;TZID=X:20240101T100000\r\nEND:VEVENT\r\n")).datetime_start
      ≠ pstr "20240101T100000"
    ∧ (parse_ics (pstr "BEGIN:VEVENT\r\nDTSTART;TZID=X:20240101T100000\r\nEND:VEVENT\r\n")).datetime_start
      = [] := by
  decide

/-- C4 as amended: an event-level `DTSTART;<params>:<value>` line is not
captured at all - only a line beginning exactly `DTSTART:` sets
`datetime_start`, and then the captured value is the text after the first
colon of the whole line; likewise a `DTEND;<params>:<value>` line is not
captured, and only a line beginning exactly `DTEND:` sets `datetime_end`.
(`p`, `v`, `w` range over line bodies without line-boundary characters and
without stray `ATTENDEE`/`ORGANIZER` substrings.) -/
theorem parse_ics_dtstart_params (p v w : List Char)
    (hp : noLB p) (hv : noLB v) (hw : noLB w)
    (hA : containsSub (pstr "ATTENDEE") (p ++ (':' :: v)) = false)
    (hO : containsSub (pstr "ORGANIZER") (p ++ (':' :: v)) = false)
    (hAw : containsSub (pstr "ATTENDEE") w = false) :
    ((parse_ics (joinCRLF
      [pstr "BEGIN:VEVENT",
       pstr "DTSTART;" ++ (p ++ (':' :: v)),
       pstr "END:VEVENT"])).datetime_start = []
    ∧ (parse_ics (joinCRLF
      [pstr "BEGIN:VEVENT",
       pstr "DTSTART:" ++ w,
       pstr "END:VEVENT"])).datetime_start = w)
    ∧ (parse_ics (joinCRLF
      [pstr "BEGIN:VEVENT",
       pstr "DTEND;" ++ (p ++ (':' :: v)),
       pstr "END:VEVENT"])).datetime_end = []
    ∧ (parse_ics (joinCRLF
      [pstr "BEGIN:VEVENT",
       pstr "DTEND:" ++ w,
       pstr "END:VEVENT"])).datetime_end = w := by
  refine ⟨⟨?_, ?_⟩, ?_, ?_⟩
  · have h1 : ∀ l ∈ [pstr "BEGIN:VEVENT", pstr "DTSTART;" ++ (p ++ (':' :: v)),
        pstr "END:VEVENT"], noLB l := by
      intro l hl
      simp only [List.mem_cons, List.not_mem_nil, or_false] at hl
      rcases hl with rfl | rfl | rfl
      · decide
      · exact noLB_append (by decide) (noLB_append hp (noLB_cons (by decide) hv))
      · decide
    have h2 : ∀ l ∈ [pstr "BEGIN:VEVENT", pstr "DTSTART;" ++ (p ++ (':' :: v)),
        pstr "END:VEVENT"], headNS l := by
      intro l hl
      simp only [List.mem_cons, List.not_mem_nil, or_false] at hl
      rcases hl with rfl | rfl | rfl
      all_goals first
      | decide
      | exact headNS_cons (by decide)
    unfold parse_ics
    rw [icsLines_joinCRLF _ h1 h2]
    rw [show initState (joinCRLF
        [pstr "BEGIN:VEVENT", pstr "DTSTART;" ++ (p ++ (':' :: v)), pstr "END:VEVENT"])
      = ⟨false, false, false, none, initData (joinCRLF
        [pstr "BEGIN:VEVENT", pstr "DTSTART;" ++ (p ++ (':' :: v)), pstr "END:VEVENT"])⟩ from rfl]
    rw [List.foldl_cons, step_begin_vevent]
    rw [List.foldl_cons, step_dtstart_params _ _ _ _ _ hA hO]
    rw [List.foldl_cons, step_end_vevent]
    rw [List.foldl_nil]
    rfl
  · have h1 : ∀ l ∈ [pstr "BEGIN:VEVENT", pstr "DTSTART:" ++ w,
        pstr "END:VEVENT"], noLB l := by
      intro l hl
      simp only [List.mem_cons, List.not_mem_nil, or_false] at hl
      rcases hl with rfl | rfl | rfl
      · decide
      · exact noLB_append (by decide) hw
      · decide
    have h2 : ∀ l ∈ [pstr "BEGIN:VEVENT", pstr "DTSTART:" ++ w,
        pstr "END:VEVENT"], headNS l := by
      intro l hl
      simp only [List.mem_cons, List.not_mem_nil, or_false] at hl
      rcases hl with rfl | rfl | rfl
      all_goals first
      | decide
      | exact headNS_cons (by decide)
    unfold parse_ics
    rw [icsLines_joinCRLF _ h1 h2]
    rw [show initState (joinCRLF
        [pstr "BEGIN:VEVENT", pstr "DTSTART:" ++ w, pstr "END:VEVENT"])
      = ⟨false, false, false, none, initData (joinCRLF
        [pstr "BEGIN:VEVENT", pstr "DTSTART:" ++ w, pstr "END:VEVENT"])⟩ from rfl]
    rw [List.foldl_cons, step_begin_vevent]
    rw [List.foldl_cons, step_dtstart _ _ _ _ hAw]
    rw [List.foldl_cons, step_end_vevent]
    rw [List.foldl_nil]
  · have h1 : ∀ l ∈ [pstr "BEGIN:VEVENT", pstr "DTEND;" ++ (p ++ (':' :: v)),
        pstr "END:VEVENT"], noLB l := by
      intro l hl
      simp only [List.mem_cons, List.not_mem_nil, or_false] at hl
      rcases hl with rfl | rfl | rfl
      · decide
      · exact noLB_append (by decide) (noLB_append hp (noLB_cons (by decide) hv))
      · decide
    have h2 : ∀ l ∈ [pstr "BEGIN:VEVENT", pstr "DTEND;" ++ (p ++ (':' :: v)),
        pstr "END:VEVENT"], headNS l := by
      intro l hl
      simp only [List.mem_cons, List.not_mem_nil, or_false] at hl
      rcases hl with rfl | rfl | rfl
      all_goals first
      | decide
      | exact headNS_cons (by decide)
    unfold parse_ics
    rw [icsLines_joinCRLF _ h1 h2]
    rw [show initState (joinCRLF
        [pstr "BEGIN:VEVENT", pstr "DTEND;" ++ (p ++ (':' :: v)), pstr "END:VEVENT"])
      = ⟨false, false, false, none, initData (joinCRLF
        [pstr "BEGIN:VEVENT", pstr "DTEND;" ++ (p ++ (':' :: v)), pstr "END:VEVENT"])⟩ from rfl]
    rw [List.foldl_cons, step_begin_vevent]
    rw [List.foldl_cons, step_dtend_params _ _ _ _ _ hA hO]
    rw [List.foldl_cons, step_end_vevent]
    rw [List.foldl_nil]
    rfl
  · have h1 : ∀ l ∈ [pstr "BEGIN:VEVENT", pstr "DTEND:" ++ w,
        pstr "END:VEVENT"], noLB l := by
      intro l hl
      simp only [List.mem_cons, List.not_mem_nil, or_false] at hl
      rcases hl with rfl | rfl | rfl
      · decide
      · exact noLB_append (by decide) hw
      · decide
    have h2 : ∀ l ∈ [pstr "BEGIN:VEVENT", pstr "DTEND:" ++ w,
        pstr "END:VEVENT"], headNS l := by
      intro l hl
      simp only [List.mem_cons, List.not_mem_nil, or_false] at hl
      rcases hl with rfl | rfl | rfl
      all_goals first
      | decide
      | exact headNS_cons (by decide)
    unfold parse_ics
    rw [icsLines_joinCRLF _ h1 h2]
    rw [show initState (joinCRLF
        [pstr "BEGIN:VEVENT", pstr "DTEND:" ++ w, pstr "END:VEVENT"])
      = ⟨false, false, false, none, initData (joinCRLF
        [pstr "BEGIN:VEVENT", pstr "DTEND:" ++ w, pstr "END:VEVENT"])⟩ from rfl]
    rw [List.foldl_cons, step_begin_vevent]
    rw [List.foldl_cons, step_dtend _ _ _ _ hAw]
    rw [List.foldl_cons, step_end_vevent]
    rw [List.foldl_nil]

/-- Witness for the amended C4 at the spec's own example line, with captured
values containing a space. -/
theorem parse_ics_dtstart_params_witness :
    ((parse_ics (joinCRLF
      [pstr "BEGIN:VEVENT",
       pstr "DTSTART;" ++ (pstr "TZID=X" ++ (':' :: pstr "20240101T100000")),
       pstr "END:VEVENT"])).datetime_start = []
    ∧ (parse_ics (joinCRLF
      [pstr "BEGIN:VEVENT",
       pstr "DTSTART:" ++ pstr "20240101T100000 Z",
       pstr "END:VEVENT"])).datetime_start = pstr "20240101T100000 Z")
    ∧ (parse_ics (joinCRLF
      [pstr "BEGIN:VEVENT",
       pstr "DTEND;" ++ (pstr "TZID=X" ++ (':' :: pstr "20240101T100000")),
       pstr "END:VEVENT"])).datetime_end = []
    ∧ (parse_ics (joinCRLF
      [pstr "BEGIN:VEVENT",
       pstr "DTEND:" ++ pstr "20240101T100000 Z",
       pstr "END:VEVENT"])).datetime_end = pstr "20240101T100000 Z" :=
  parse_ics_dtstart_params (pstr "TZID=X") (pstr "20240101T100000")
    (pstr "20240101T100000 Z")
    (by decide) (by decide) (by decide) (by decide) (by decide) (by decide)

/-- Counterexample to C5 as stated: after `ORGANIZER;CN=Alice:mailto:alice@x`
has set both organizer fields, a later event-level `ORGANIZER:none` line -
on which both patterns fail - does not leave them at their prior values: it
resets both to the empty string. -/
theorem parse_ics_organizer_reset_cex :
    (parse_ics (pstr "BEGIN:VEVENT\r\nORGANIZER;CN=Alice:mailto:alice@x\r\nEND:VEVENT\r\n")).organizer_email
      = pstr "alice@x"
    ∧ (parse_ics (pstr "BEGIN:VEVENT\r\nORGANIZER;CN=Alice:mailto:alice@x\r\nEND:VEVENT\r\n")).organizer_name
      = pstr "Alice"
    ∧ (parse_ics (pstr "BEGIN:VEVENT\r\nORGANIZER;CN=Alice:mailto:alice@x\r\nORGANIZER:none\r\nEND:VEVENT\r\n")).organizer_email
      = []
    ∧ (parse_ics (pstr "BEGIN:VEVENT\r\nORGANIZER;CN=Alice:mailto:alice@x\r\nORGANIZER:none\r\nEND:VEVENT\r\n")).organizer_name
      = [] := by
  decide

/-- C5 as amended: on every event-level line containing `ORGANIZER` the
mailto pattern and the CN pattern are applied independently, and a pattern
that fails to match overwrites the corresponding field with the empty
string, discarding its prior value: a follow-up line matching neither
pattern resets both fields, and one matching only `mailto:` sets the email
while resetting the name. -/
theorem parse_ics_organizer_reset (n em x e2 : List Char)
    (hn : noLB n) (hem : noLB em) (hx : noLB x) (he2 : noLB e2)
    (hn1 : ∀ c ∈ n, c ≠ ':' ∧ c ≠ ';') (hn2 : 'm' ∉ n)
    (hAo : containsSub (pstr "ATTENDEE") (n ++ (':' :: (pstr "mailto:" ++ em))) = false)
    (hx1 : 'm' ∉ x) (hx2 : 'C' ∉ x)
    (hAx : containsSub (pstr "ATTENDEE") x = false)
    (he2C : 'C' ∉ e2)
    (hAe2 : containsSub (pstr "ATTENDEE") e2 = false) :
    ((parse_ics (joinCRLF
      [pstr "BEGIN:VEVENT",
       pstr "ORGANIZER;CN=" ++ (n ++ (':' :: (pstr "mailto:" ++ em))),
       pstr "ORGANIZER:" ++ x,
       pstr "END:VEVENT"])).organizer_email = []
    ∧ (parse_ics (joinCRLF
      [pstr "BEGIN:VEVENT",
       pstr "ORGANIZER;CN=" ++ (n ++ (':' :: (pstr "mailto:" ++ em))),
       pstr "ORGANIZER:" ++ x,
       pstr "END:VEVENT"])).organizer_name = [])
    ∧ ((parse_ics (joinCRLF
      [pstr "BEGIN:VEVENT",
       pstr "ORGANIZER;CN=" ++ (n ++ (':' :: (pstr "mailto:" ++ em))),
       pstr "ORGANIZER:mailto:" ++ e2,
       pstr "END:VEVENT"])).organizer_email = e2
    ∧ (parse_ics (joinCRLF
      [pstr "BEGIN:VEVENT",
       pstr "ORGANIZER;CN=" ++ (n ++ (':' :: (pstr "mailto:" ++ em))),
       pstr "ORGANIZER:mailto:" ++ e2,
       pstr "END:VEVENT"])).organizer_name = []) := by
  constructor
  · have h1 : ∀ l ∈ [pstr "BEGIN:VEVENT",
        pstr "ORGANIZER;CN=" ++ (n ++ (':' :: (pstr "mailto:" ++ em))),
        pstr "ORGANIZER:" ++ x, pstr "END:VEVENT"], noLB l := by
      intro l hl
      simp only [List.mem_cons, List.not_mem_nil, or_false] at hl
      rcases hl with rfl | rfl | rfl | rfl
      · decide
      · exact noLB_append (by decide)
          (noLB_append hn (noLB_cons (by decide) (noLB_append (by decide) hem)))
      · exact noLB_append (by decide) hx
      · decide
    have h2 : ∀ l ∈ [pstr "BEGIN:VEVENT",
        pstr "ORGANIZER;CN=" ++ (n ++ (':' :: (pstr "mailto:" ++ em))),
        pstr "ORGANIZER:" ++ x, pstr "END:VEVENT"], headNS l := by
      intro l hl
      simp only [List.mem_cons, List.not_mem_nil, or_false] at hl
      rcases hl with rfl | rfl | rfl | rfl
      all_goals first
      | decide
      | exact headNS_cons (by decide)
    have key : parse_ics (joinCRLF
        [pstr "BEGIN:VEVENT",
         pstr "ORGANIZER;CN=" ++ (n ++ (':' :: (pstr "mailto:" ++ em))),
         pstr "ORGANIZER:" ++ x,
         pstr "END:VEVENT"])
        = { summary := [], datetime_start := [], datetime_end := [], tzid := []
            organizer_name := [], organizer_email := [], attendees := []
            ics_file := joinCRLF
              [pstr "BEGIN:VEVENT",
               pstr "ORGANIZER;CN=" ++ (n ++ (':' :: (pstr "mailto:" ++ em))),
               pstr "ORGANIZER:" ++ x,
               pstr "END:VEVENT"] } := by
      unfold parse_ics
      rw [icsLines_joinCRLF _ h1 h2]
      rw [show initState (joinCRLF
          [pstr "BEGIN:VEVENT",
           pstr "ORGANIZER;CN=" ++ (n ++ (':' :: (pstr "mailto:" ++ em))),
           pstr "ORGANIZER:" ++ x, pstr "END:VEVENT"])
        = ⟨false, false, false, none, initData (joinCRLF
          [pstr "BEGIN:VEVENT",
           pstr "ORGANIZER;CN=" ++ (n ++ (':' :: (pstr "mailto:" ++ em))),
           pstr "ORGANIZER:" ++ x, pstr "END:VEVENT"])⟩ from rfl]
      rw [List.foldl_cons, step_begin_vevent]
      rw [List.foldl_cons, step_organizer _ _ _ _ _ hn1 hn2 hAo]
      rw [List.foldl_cons, step_organizer_bare _ _ _ _ hx1 hx2 hAx]
      rw [List.foldl_cons, step_end_vevent]
      rw [List.foldl_nil]
      rfl
    rw [key]
    exact ⟨rfl, rfl⟩
  · have h1 : ∀ l ∈ [pstr "BEGIN:VEVENT",
        pstr "ORGANIZER;CN=" ++ (n ++ (':' :: (pstr "mailto:" ++ em))),
        pstr "ORGANIZER:mailto:" ++ e2, pstr "END:VEVENT"], noLB l := by
      intro l hl
      simp only [List.mem_cons, List.not_mem_nil, or_false] at hl
      rcases hl with rfl | rfl | rfl | rfl
      · decide
      · exact noLB_append (by decide)
          (noLB_append hn (noLB_cons (by decide) (noLB_append (by decide) hem)))
      · exact noLB_append (by decide) he2
      · decide
    have h2 : ∀ l ∈ [pstr "BEGIN:VEVENT",
        pstr "ORGANIZER;CN=" ++ (n ++ (':' :: (pstr "mailto:" ++ em))),
        pstr "ORGANIZER:mailto:" ++ e2, pstr "END:VEVENT"], headNS l := by
      intro l hl
      simp only [List.mem_cons, List.not_mem_nil, or_false] at hl
      rcases hl with rfl | rfl | rfl | rfl
      all_goals first
      | decide
      | exact headNS_cons (by decide)
    have key : parse_ics (joinCRLF
        [pstr "BEGIN:VEVENT",
         pstr "ORGANIZER;CN=" ++ (n ++ (':' :: (pstr "mailto:" ++ em))),
         pstr "ORGANIZER:mailto:" ++ e2,
         pstr "END:VEVENT"])
        = { summary := [], datetime_start := [], datetime_end := [], tzid := []
            organizer_name := [], organizer_email := e2, attendees := []
            ics_file := joinCRLF
              [pstr "BEGIN:VEVENT",
               pstr "ORGANIZER;CN=" ++ (n ++ (':' :: (pstr "mailto:" ++ em))),
               pstr "ORGANIZER:mailto:" ++ e2,
               pstr "END:VEVENT"] } := by
      unfold parse_ics
      rw [icsLines_joinCRLF _ h1 h2]
      rw [show initState (joinCRLF
          [pstr "BEGIN:VEVENT",
           pstr "ORGANIZER;CN=" ++ (n ++ (':' :: (pstr "mailto:" ++ em))),
           pstr "ORGANIZER:mailto:" ++ e2, pstr "END:VEVENT"])
        = ⟨false, false, false, none, initData (joinCRLF
          [pstr "BEGIN:VEVENT",
           pstr "ORGANIZER;CN=" ++ (n ++ (':' :: (pstr "mailto:" ++ em))),
           pstr "ORGANIZER:mailto:" ++ e2, pstr "END:VEVENT"])⟩ from rfl]
      rw [List.foldl_cons, step_begin_vevent]
      rw [List.foldl_cons, step_organizer _ _ _ _ _ hn1 hn2 hAo]
      rw [List.foldl_cons, step_organizer_mailto _ _ _ _ he2C hAe2]
      rw [List.foldl_cons, step_end_vevent]
      rw [List.foldl_nil]
      rfl
    rw [key]
    exact ⟨rfl, rfl⟩

/-- Witness for the amended C5 on a concrete document whose organizer CN
contains a space. -/
theorem parse_ics_organizer_reset_witness :
    ((parse_ics (joinCRLF
      [pstr "BEGIN:VEVENT",
       pstr "ORGANIZER;CN=" ++ (pstr "Ann Lee" ++ (':' :: (pstr "mailto:" ++ pstr "a@x"))),
       pstr "ORGANIZER:" ++ pstr "none",
       pstr "END:VEVENT"])).organizer_email = []
    ∧ (parse_ics (joinCRLF
      [pstr "BEGIN:VEVENT",
       pstr "ORGANIZER;CN=" ++ (pstr "Ann Lee" ++ (':' :: (pstr "mailto:" ++ pstr "a@x"))),
       pstr "ORGANIZER:" ++ pstr "none",
       pstr "END:VEVENT"])).organizer_name = [])
    ∧ ((parse_ics (joinCRLF
      [pstr "BEGIN:VEVENT",
       pstr "ORGANIZER;CN=" ++ (pstr "Ann Lee" ++ (':' :: (pstr "mailto:" ++ pstr "a@x"))),
       pstr "ORGANIZER:mailto:" ++ pstr "bob@y",
       pstr "END:VEVENT"])).organizer_email = pstr "bob@y"
    ∧ (parse_ics (joinCRLF
      [pstr "BEGIN:VEVENT",
       pstr "ORGANIZER;CN=" ++ (pstr "Ann Lee" ++ (':' :: (pstr "mailto:" ++ pstr "a@x"))),
       pstr "ORGANIZER:mailto:" ++ pstr "bob@y",
       pstr "END:VEVENT"])).organizer_name = []) :=
  parse_ics_organizer_reset (pstr "Ann Lee") (pstr "a@x") (pstr "none") (pstr "bob@y")
    (by decide) (by decide) (by decide) (by decide) (by decide) (by decide)
    (by decide) (by decide) (by decide) (by decide) (by decide) (by decide)

/-! Lemmas for C6: the checked parser never fails, and absent fields keep
their defaults. -/

theorem pySplit1Tail_eq_some (pre line : List Char) (hpre : ∀ c ∈ pre, c ≠ ':')
    (h : startsWithL (pre ++ [':']) line = true) :
    pySplit1Tail line = some (afterColon line) := by
  obtain ⟨t, rfl⟩ := exists_append_of_startsWithL h
  rw [List.append_assoc]
  rw [show ([':'] ++ t) = ':' :: t from rfl]
  unfold afterColon
  rw [pySplit1Tail_append pre t hpre]
  rfl

theorem applyTzidChecked_eq (st : ParseState) (line : List Char) :
    applyTzidChecked st line = some (applyTzid st line) := by
  unfold applyTzidChecked applyTzid
  by_cases h : (st.in_timezone && startsWithL (pstr "TZID:") line) = true
  · rw [if_pos h, if_pos h]
    have h2 : startsWithL (pstr "TZID:") line = true := (Bool.and_eq_true _ _ |>.mp h).2
    rw [pySplit1Tail_eq_some (pstr "TZID") line (by decide) h2]
    rfl
  · rw [if_neg h, if_neg h]

theorem captureFieldsChecked_eq (st : ParseState) (line : List Char) :
    captureFieldsChecked st line = some (captureFields st line) := by
  unfold captureFieldsChecked captureFields
  by_cases h1 : startsWithL (pstr "SUMMARY:") line = true
  · rw [if_pos h1, if_pos h1, pySplit1Tail_eq_some (pstr "SUMMARY") line (by decide) h1]
    rfl
  · rw [if_neg h1, if_neg h1]
    by_cases h2 : startsWithL (pstr "DTSTART:") line = true
    · rw [if_pos h2, if_pos h2, pySplit1Tail_eq_some (pstr "DTSTART") line (by decide) h2]
      rfl
    · rw [if_neg h2, if_neg h2]
      by_cases h3 : startsWithL (pstr "DTEND:") line = true
      · rw [if_pos h3, if_pos h3, pySplit1Tail_eq_some (pstr "DTEND") line (by decide) h3]
        rfl
      · rw [if_neg h3, if_neg h3]
        by_cases h4 : containsSub (pstr "ORGANIZER") line = true
        · rw [if_pos h4, if_pos h4]
        · rw [if_neg h4, if_neg h4]

theorem applyFieldsChecked_eq (st : ParseState) (line : List Char) :
    applyFieldsChecked st line = some (applyFields st line) := by
  unfold applyFieldsChecked applyFields
  by_cases h : (st.in_event && !st.in_alarm) = true
  · rw [if_pos h, if_pos h]
    exact captureFieldsChecked_eq st line
  · rw [if_neg h, if_neg h]

theorem processLineChecked_eq (st : ParseState) (line : List Char) :
    processLineChecked st line = some (processLine st line) := by
  unfold processLineChecked processLine
  rw [applyTzidChecked_eq]
  show (applyFieldsChecked (applyTzid (applyTransitions st line) line) line).map _
    = _
  rw [applyFieldsChecked_eq]
  rfl

theorem foldlM_processLineChecked (ls : List (List Char)) (st : ParseState) :
    ls.foldlM processLineChecked st = some (ls.foldl processLine st) := by
  induction ls generalizing st with
  | nil => rfl
  | cons l ls ih =>
    rw [List.foldlM_cons, processLineChecked_eq]
    show ls.foldlM processLineChecked (processLine st l) = _
    rw [ih, List.foldl_cons]

theorem parse_icsChecked_eq (content : List Char) :
    parse_icsChecked content = some (parse_ics content) := by
  unfold parse_icsChecked parse_ics
  rw [foldlM_processLineChecked]
  rfl

/-! Frame lemmas: each field of the record only changes on a line that its
capture rule matches. -/

theorem applyTransitions_frame (st : ParseState) (line : List Char) :
    (applyTransitions st line).data.summary = st.data.summary
    ∧ (applyTransitions st line).data.datetime_start = st.data.datetime_start
    ∧ (applyTransitions st line).data.datetime_end = st.data.datetime_end
    ∧ (applyTransitions st line).data.organizer_name = st.data.organizer_name
    ∧ (applyTransitions st line).data.organizer_email = st.data.organizer_email
    ∧ (applyTransitions st line).data.attendees = st.data.attendees := by
  unfold applyTransitions
  repeat' split
  all_goals exact ⟨rfl, rfl, rfl, rfl, rfl, rfl⟩

theorem applyTzid_data (st : ParseState) (line : List Char) :
    (applyTzid st line).data = st.data := by
  unfold applyTzid
  split <;> rfl

theorem applyAttendee_scalar_frame (st : ParseState) (line : List Char) :
    (applyAttendee st line).data.summary = st.data.summary
    ∧ (applyAttendee st line).data.datetime_start = st.data.datetime_start
    ∧ (applyAttendee st line).data.datetime_end = st.data.datetime_end
    ∧ (applyAttendee st line).data.organizer_name = st.data.organizer_name
    ∧ (applyAttendee st line).data.organizer_email = st.data.organizer_email
    ∧ (applyAttendee st line).data.tzid = st.data.tzid := by
  unfold applyAttendee
  split
  all_goals exact ⟨rfl, rfl, rfl, rfl, rfl, rfl⟩

theorem captureFields_summary_frame (st : ParseState) (line : List Char)
    (h : startsWithL (pstr "SUMMARY:") line = false) :
    (captureFields st line).data.summary = st.data.summary := by
  unfold captureFields
  rw [h]
  simp only [Bool.false_eq_true, if_false]
  repeat' split
  all_goals rfl

theorem captureFields_dtstart_frame (st : ParseState) (line : List Char)
    (h : startsWithL (pstr "DTSTART:") line = false) :
    (captureFields st line).data.datetime_start = st.data.datetime_start := by
  unfold captureFields
  rw [h]
  simp only [Bool.false_eq_true, if_false]
  repeat' split
  all_goals rfl

theorem captureFields_dtend_frame (st : ParseState) (line : List Char)
    (h : startsWithL (pstr "DTEND:") line = false) :
    (captureFields st line).data.datetime_end = st.data.datetime_end := by
  unfold captureFields
  rw [h]
  simp only [Bool.false_eq_true, if_false]
  repeat' split
  all_goals rfl

theorem captureFields_organizer_frame (st : ParseState) (line : List Char)
    (h : containsSub (pstr "ORGANIZER") line = false) :
    (captureFields st line).data.organizer_name = st.data.organizer_name
    ∧ (captureFields st line).data.organizer_email = st.data.organizer_email := by
  unfold captureFields
  rw [h]
  simp only [Bool.false_eq_true, if_false]
  repeat' split
  all_goals exact ⟨rfl, rfl⟩

theorem captureFields_other_frame (st : ParseState) (line : List Char) :
    (captureFields st line).data.attendees = st.data.attendees
    ∧ (captureFields st line).data.tzid = st.data.tzid
    ∧ (captureFields st line).tzvar = st.tzvar := by
  unfold captureFields
  repeat' split
  all_goals exact ⟨rfl, rfl, rfl⟩

theorem applyFields_summary_frame (st : ParseState) (line : List Char)
    (h : startsWithL (pstr "SUMMARY:") line = false) :
    (applyFields st line).data.summary = st.data.summary := by
  unfold applyFields
  split
  · exact captureFields_summary_frame st line h
  · rfl

theorem applyFields_dtstart_frame (st : ParseState) (line : List Char)
    (h : startsWithL (pstr "DTSTART:") line = false) :
    (applyFields st line).data.datetime_start = st.data.datetime_start := by
  unfold applyFields
  split
  · exact captureFields_dtstart_frame st line h
  · rfl

theorem applyFields_dtend_frame (st : ParseState) (line : List Char)
    (h : startsWithL (pstr "DTEND:") line = false) :
    (applyFields st line).data.datetime_end = st.data.datetime_end := by
  unfold applyFields
  split
  · exact captureFields_dtend_frame st line h
  · rfl

theorem applyFields_organizer_frame (st : ParseState) (line : List Char)
    (h : containsSub (pstr "ORGANIZER") line = false) :
    (applyFields st line).data.organizer_name = st.data.organizer_name
    ∧ (applyFields st line).data.organizer_email = st.data.organizer_email := by
  unfold applyFields
  split
  · exact captureFields_organizer_frame st line h
  · exact ⟨rfl, rfl⟩

theorem applyFields_other_frame (st : ParseState) (line : List Char) :
    (applyFields st line).data.attendees = st.data.attendees
    ∧ (applyFields st line).data.tzid = st.data.tzid
    ∧ (applyFields st line).tzvar = st.tzvar := by
  unfold applyFields
  split
  · exact captureFields_other_frame st line
  · exact ⟨rfl, rfl, rfl⟩

theorem processLine_summary_frame (st : ParseState) (line : List Char)
    (h : startsWithL (pstr "SUMMARY:") line = false) :
    (processLine st line).data.summary = st.data.summary := by
  unfold processLine
  calc (applyAttendee (applyFields (applyTzid (applyTransitions st line) line) line) line).data.summary
      = (applyFields (applyTzid (applyTransitions st line) line) line).data.summary :=
        (applyAttendee_scalar_frame _ _).1
    _ = (applyTzid (applyTransitions st line) line).data.summary :=
        applyFields_summary_frame _ _ h
    _ = (applyTransitions st line).data.summary := by rw [applyTzid_data]
    _ = st.data.summary := (applyTransitions_frame _ _).1

theorem processLine_dtstart_frame (st : ParseState) (line : List Char)
    (h : startsWithL (pstr "DTSTART:") line = false) :
    (processLine st line).data.datetime_start = st.data.datetime_start := by
  unfold processLine
  calc (applyAttendee (applyFields (applyTzid (applyTransitions st line) line) line) line).data.datetime_start
      = (applyFields (applyTzid (applyTransitions st line) line) line).data.datetime_start :=
        (applyAttendee_scalar_frame _ _).2.1
    _ = (applyTzid (applyTransitions st line) line).data.datetime_start :=
        applyFields_dtstart_frame _ _ h
    _ = (applyTransitions st line).data.datetime_start := by rw [applyTzid_data]
    _ = st.data.datetime_start := (applyTransitions_frame _ _).2.1

theorem processLine_dtend_frame (st : ParseState) (line : List Char)
    (h : startsWithL (pstr "DTEND:") line = false) :
    (processLine st line).data.datetime_end = st.data.datetime_end := by
  unfold processLine
  calc (applyAttendee (applyFields (applyTzid (applyTransitions st line) line) line) line).data.datetime_end
      = (applyFields (applyTzid (applyTransitions st line) line) line).data.datetime_end :=
        (applyAttendee_scalar_frame _ _).2.2.1
    _ = (applyTzid (applyTransitions st line) line).data.datetime_end :=
        applyFields_dtend_frame _ _ h
    _ = (applyTransitions st line).data.datetime_end := by rw [applyTzid_data]
    _ = st.data.datetime_end := (applyTransitions_frame _ _).2.2.1

theorem processLine_organizer_frame (st : ParseState) (line : List Char)
    (h : containsSub (pstr "ORGANIZER") line = false) :
    (processLine st line).data.organizer_name = st.data.organizer_name
    ∧ (processLine st line).data.organizer_email = st.data.organizer_email := by
  unfold processLine
  constructor
  · calc (applyAttendee (applyFields (applyTzid (applyTransitions st line) line) line) line).data.organizer_name
        = (applyFields (applyTzid (applyTransitions st line) line) line).data.organizer_name :=
          (applyAttendee_scalar_frame _ _).2.2.2.1
      _ = (applyTzid (applyTransitions st line) line).data.organizer_name :=
          (applyFields_organizer_frame _ _ h).1
      _ = (applyTransitions st line).data.organizer_name := by rw [applyTzid_data]
      _ = st.data.organizer_name := (applyTransitions_frame _ _).2.2.2.1
  · calc (applyAttendee (applyFields (applyTzid (applyTransitions st line) line) line) line).data.organizer_email
        = (applyFields (applyTzid (applyTransitions st line) line) line).data.organizer_email :=
          (applyAttendee_scalar_frame _ _).2.2.2.2.1
      _ = (applyTzid (applyTransitions st line) line).data.organizer_email :=
          (applyFields_organizer_frame _ _ h).2
      _ = (applyTransitions st line).data.organizer_email := by rw [applyTzid_data]
      _ = st.data.organizer_email := (applyTransitions_frame _ _).2.2.2.2.1

theorem processLine_attendees_frame (st : ParseState) (line : List Char)
    (h : containsSub (pstr "ATTENDEE") line = false) :
    (processLine st line).data.attendees = st.data.attendees := by
  unfold processLine
  rw [applyAttendee_not_att _ _ h]
  calc (applyFields (applyTzid (applyTransitions st line) line) line).data.attendees
      = (applyTzid (applyTransitions st line) line).data.attendees :=
        (applyFields_other_frame _ _).1
    _ = (applyTransitions st line).data.attendees := by rw [applyTzid_data]
    _ = st.data.attendees := (applyTransitions_frame _ _).2.2.2.2.2

theorem applyTransitions_tzvar (st : ParseState) (line : List Char) :
    (applyTransitions st line).tzvar = st.tzvar := by
  unfold applyTransitions
  repeat' split
  all_goals rfl

theorem applyAttendee_tzvar (st : ParseState) (line : List Char) :
    (applyAttendee st line).tzvar = st.tzvar := by
  unfold applyAttendee
  split <;> rfl

theorem applyTransitions_tzid_default (st : ParseState) (line : List Char)
    (hz : st.tzvar = none) (hd : st.data.tzid = []) :
    (applyTransitions st line).data.tzid = [] := by
  unfold applyTransitions
  repeat' split
  all_goals first
  | exact hd
  | (show st.tzvar.getD [] = []
     rw [hz]
     rfl)

theorem processLine_tzid_default (st : ParseState) (line : List Char)
    (hT : startsWithL (pstr "TZID:") line = false)
    (hz : st.tzvar = none) (hd : st.data.tzid = []) :
    (processLine st line).tzvar = none ∧ (processLine st line).data.tzid = [] := by
  unfold processLine
  rw [applyTzid_not_tzid _ line hT]
  constructor
  · rw [applyAttendee_tzvar, (applyFields_other_frame _ _).2.2, applyTransitions_tzvar]
    exact hz
  · rw [(applyAttendee_scalar_frame _ _).2.2.2.2.2, (applyFields_other_frame _ _).2.1]
    exact applyTransitions_tzid_default st line hz hd

theorem foldl_summary_frame (ls : List (List Char)) (st : ParseState)
    (h : ∀ l ∈ ls, startsWithL (pstr "SUMMARY:") l = false) :
    (ls.foldl processLine st).data.summary = st.data.summary := by
  induction ls generalizing st with
  | nil => rfl
  | cons l ls ih =>
    rw [List.foldl_cons, ih _ fun l hl => h l (List.mem_cons_of_mem _ hl),
      processLine_summary_frame _ _ (h l (List.mem_cons_self _ _))]

theorem foldl_dtstart_frame (ls : List (List Char)) (st : ParseState)
    (h : ∀ l ∈ ls, startsWithL (pstr "DTSTART:") l = false) :
    (ls.foldl processLine st).data.datetime_start = st.data.datetime_start := by
  induction ls generalizing st with
  | nil => rfl
  | cons l ls ih =>
    rw [List.foldl_cons, ih _ fun l hl => h l (List.mem_cons_of_mem _ hl),
      processLine_dtstart_frame _ _ (h l (List.mem_cons_self _ _))]

theorem foldl_dtend_frame (ls : List (List Char)) (st : ParseState)
    (h : ∀ l ∈ ls, startsWithL (pstr "DTEND:") l = false) :
    (ls.foldl processLine st).data.datetime_end = st.data.datetime_end := by
  induction ls generalizing st with
  | nil => rfl
  | cons l ls ih =>
    rw [List.foldl_cons, ih _ fun l hl => h l (List.mem_cons_of_mem _ hl),
      processLine_dtend_frame _ _ (h l (List.mem_cons_self _ _))]

theorem foldl_organizer_frame (ls : List (List Char)) (st : ParseState)
    (h : ∀ l ∈ ls, containsSub (pstr "ORGANIZER") l = false) :
    (ls.foldl processLine st).data.organizer_name = st.data.organizer_name
    ∧ (ls.foldl processLine st).data.organizer_email = st.data.organizer_email := by
  induction ls generalizing st with
  | nil => exact ⟨rfl, rfl⟩
  | cons l ls ih =>
    have hl := processLine_organizer_frame st l (h l (List.mem_cons_self _ _))
    have ihl := ih (processLine st l) fun l hl => h l (List.mem_cons_of_mem _ hl)
    exact ⟨by rw [List.foldl_cons, ihl.1, hl.1], by rw [List.foldl_cons, ihl.2, hl.2]⟩

theorem foldl_attendees_frame (ls : List (List Char)) (st : ParseState)
    (h : ∀ l ∈ ls, containsSub (pstr "ATTENDEE") l = false) :
    (ls.foldl processLine st).data.attendees = st.data.attendees := by
  induction ls generalizing st with
  | nil => rfl
  | cons l ls ih =>
    rw [List.foldl_cons, ih _ fun l hl => h l (List.mem_cons_of_mem _ hl),
      processLine_attendees_frame _ _ (h l (List.mem_cons_self _ _))]

theorem foldl_tzid_default (ls : List (List Char)) (st : ParseState)
    (h : ∀ l ∈ ls, startsWithL (pstr "TZID:") l = false)
    (hz : st.tzvar = none) (hd : st.data.tzid = []) :
    (ls.foldl processLine st).data.tzid = [] := by
  induction ls generalizing st with
  | nil => exact hd
  | cons l ls ih =>
    have step := processLine_tzid_default st l (h l (List.mem_cons_self _ _)) hz hd
    rw [List.foldl_cons]
    exact ih _ (fun l hl => h l (List.mem_cons_of_mem _ hl)) step.1 step.2

/-- C6. For every input string, however malformed, `parse_ics` completes
and returns a record: the checked run - in which the one partial operation
of the loop, `line.split(":", 1)[1]`, is allowed to fail - always returns
`some` of the total parser's record, because every call is guarded by a
`startswith` whose pattern contains the colon. Moreover each field whose
capture rule matches no line of the (unfolded, split) input keeps its
default empty value. -/
theorem parse_ics_never_fails_and_defaults (content : List Char) :
    parse_icsChecked content = some (parse_ics content)
    ∧ ((∀ l ∈ icsLines content, startsWithL (pstr "SUMMARY:") l = false) →
        (parse_ics content).summary = [])
    ∧ ((∀ l ∈ icsLines content, startsWithL (pstr "DTSTART:") l = false) →
        (parse_ics content).datetime_start = [])
    ∧ ((∀ l ∈ icsLines content, startsWithL (pstr "DTEND:") l = false) →
        (parse_ics content).datetime_end = [])
    ∧ ((∀ l ∈ icsLines content, containsSub (pstr "ORGANIZER") l = false) →
        (parse_ics content).organizer_name = [] ∧ (parse_ics content).organizer_email = [])
    ∧ ((∀ l ∈ icsLines content, containsSub (pstr "ATTENDEE") l = false) →
        (parse_ics content).attendees = [])
    ∧ ((∀ l ∈ icsLines content, startsWithL (pstr "TZID:") l = false) →
        (parse_ics content).tzid = []) := by
  refine ⟨parse_icsChecked_eq content, ?_, ?_, ?_, ?_, ?_, ?_⟩
  · intro h
    show ((icsLines content).foldl processLine (initState content)).data.summary = []
    rw [foldl_summary_frame _ _ h]
    rfl
  · intro h
    show ((icsLines content).foldl processLine (initState content)).data.datetime_start = []
    rw [foldl_dtstart_frame _ _ h]
    rfl
  · intro h
    show ((icsLines content).foldl processLine (initState content)).data.datetime_end = []
    rw [foldl_dtend_frame _ _ h]
    rfl
  · intro h
    have h2 := foldl_organizer_frame (icsLines content) (initState content) h
    exact ⟨by show ((icsLines content).foldl processLine (initState content)).data.organizer_name = []
              rw [h2.1]
              rfl,
           by show ((icsLines content).foldl processLine (initState content)).data.organizer_email = []
              rw [h2.2]
              rfl⟩
  · intro h
    show ((icsLines content).foldl processLine (initState content)).data.attendees = []
    rw [foldl_attendees_frame _ _ h]
    rfl
  · intro h
    exact foldl_tzid_default (icsLines content) (initState content) h rfl rfl

/-- Witness for C6 on a concrete malformed (non-ICS) input. -/
theorem parse_ics_never_fails_and_defaults_witness :
    parse_icsChecked (pstr "hello\r\nworld") = some (parse_ics (pstr "hello\r\nworld"))
    ∧ (parse_ics (pstr "hello\r\nworld")).summary = []
    ∧ (parse_ics (pstr "hello\r\nworld")).datetime_start = []
    ∧ (parse_ics (pstr "hello\r\nworld")).datetime_end = []
    ∧ ((parse_ics (pstr "hello\r\nworld")).organizer_name = []
        ∧ (parse_ics (pstr "hello\r\nworld")).organizer_email = [])
    ∧ (parse_ics (pstr "hello\r\nworld")).attendees = []
    ∧ (parse_ics (pstr "hello\r\nworld")).tzid = [] := by
  have h := parse_ics_never_fails_and_defaults (pstr "hello\r\nworld")
  exact ⟨h.1, h.2.1 (by decide), h.2.2.1 (by decide), h.2.2.2.1 (by decide),
    h.2.2.2.2.1 (by decide), h.2.2.2.2.2.1 (by decide), h.2.2.2.2.2.2 (by decide)⟩

/-! Lemmas for C7/C10: the body-selection loop. -/

theorem firstDecodedOf_cons_ne (ct : List Char) (p : MimePart) (rest : List MimePart)
    (h : ¬ p.content_type = ct) :
    firstDecodedOf ct (p :: rest) = firstDecodedOf ct rest := by
  simp only [firstDecodedOf]
  rw [if_neg h]

theorem firstDecodedOf_cons_some (ct : List Char) (p : MimePart) (rest : List MimePart)
    (s : List Char) (h : p.content_type = ct) (hd : p.decodedText = some s) :
    firstDecodedOf ct (p :: rest) = some s := by
  simp only [firstDecodedOf]
  rw [if_pos h, hd]

theorem firstDecodedOf_cons_none (ct : List Char) (p : MimePart) (rest : List MimePart)
    (h : p.content_type = ct) (hd : p.decodedText = none) :
    firstDecodedOf ct (p :: rest) = firstDecodedOf ct rest := by
  simp only [firstDecodedOf]
  rw [if_pos h, hd]

theorem scanContent_spec (parts : List MimePart) (t h : Option (List Char))
    (hp : ∀ p ∈ parts, ∀ s, p.decodedText = some s → s ≠ [])
    (ht : ∀ s, t = some s → s ≠ []) (hh : ∀ s, h = some s → s ≠ []) :
    scanContent parts t h
      = (orO t (firstDecodedOf (pstr "text/plain") parts),
         orO h (firstDecodedOf (pstr "text/html") parts)) := by
  induction parts generalizing t h with
  | nil =>
    show (t, h) = (orO t none, orO h none)
    cases t <;> cases h <;> rfl
  | cons p rest ih =>
    have hrest : ∀ q ∈ rest, ∀ s, q.decodedText = some s → s ≠ [] :=
      fun q hq => hp q (List.mem_cons_of_mem _ hq)
    simp only [scanContent]
    by_cases hcp : p.content_type = pstr "text/plain"
    · have hchtml : ¬ p.content_type = pstr "text/html" := by
        rw [hcp]
        decide
      cases t with
      | none =>
        have hc1 : (decide (p.content_type = pstr "text/plain") && !(isTruthy none)) = true := by
          simp [hcp, isTruthy]
        rw [hc1]
        simp only [if_true]
        cases hdp : p.decodedText with
        | some s =>
          show scanContent rest (some s) h = _
          rw [ih (some s) h hrest (fun s' hs' => by
              injection hs' with hs'
              exact hs' ▸ hp p (List.mem_cons_self _ _) s hdp) hh]
          rw [firstDecodedOf_cons_some _ _ _ _ hcp hdp,
            firstDecodedOf_cons_ne _ _ _ hchtml]
          rfl
        | none =>
          show scanContent rest none h = _
          rw [ih none h hrest (fun s' hs' => by cases hs') hh]
          rw [firstDecodedOf_cons_none _ _ _ hcp hdp,
            firstDecodedOf_cons_ne _ _ _ hchtml]
      | some s0 =>
        have hs0 : s0 ≠ [] := ht s0 rfl
        have hc1 : (decide (p.content_type = pstr "text/plain") && !(isTruthy (some s0))) = false := by
          simp [isTruthy, hs0]
        rw [hc1]
        have hc2 : (decide (p.content_type = pstr "text/html") && !(isTruthy h)) = false := by
          simp [hchtml]
        rw [hc2]
        simp only [Bool.false_eq_true, if_false]
        rw [ih (some s0) h hrest ht hh]
        rw [firstDecodedOf_cons_ne _ _ _ hchtml]
        cases hfp : firstDecodedOf (pstr "text/plain") (p :: rest) <;> rfl
    · have hc1 : (decide (p.content_type = pstr "text/plain") && !(isTruthy t)) = false := by
        simp [hcp]
      rw [hc1]
      simp only [Bool.false_eq_true, if_false]
      rw [firstDecodedOf_cons_ne _ _ _ hcp]
      by_cases hch : p.content_type = pstr "text/html"
      · cases h with
        | none =>
          have hc2 : (decide (p.content_type = pstr "text/html") && !(isTruthy none)) = true := by
            simp [hch, isTruthy]
          rw [hc2]
          simp only [if_true]
          cases hdp : p.decodedText with
          | some s =>
            show scanContent rest t (some s) = _
            rw [ih t (some s) hrest ht (fun s' hs' => by
                injection hs' with hs'
                exact hs' ▸ hp p (List.mem_cons_self _ _) s hdp)]
            rw [firstDecodedOf_cons_some _ _ _ _ hch hdp]
            rfl
          | none =>
            show scanContent rest t none = _
            rw [ih t none hrest ht (fun s' hs' => by cases hs')]
            rw [firstDecodedOf_cons_none _ _ _ hch hdp]
        | some h0 =>
          have hh0 : h0 ≠ [] := hh h0 rfl
          have hc2 : (decide (p.content_type = pstr "text/html") && !(isTruthy (some h0))) = false := by
            simp [isTruthy, hh0]
          rw [hc2]
          simp only [Bool.false_eq_true, if_false]
          rw [ih t (some h0) hrest ht hh]
          cases hfh : firstDecodedOf (pstr "text/html") (p :: rest) <;> rfl
      · have hc2 : (decide (p.content_type = pstr "text/html") && !(isTruthy h)) = false := by
          simp [hch]
        rw [hc2]
        simp only [Bool.false_eq_true, if_false]
        rw [ih t h hrest ht hh]
        rw [firstDecodedOf_cons_ne _ _ _ hch]

/-- Counterexample to C7 as stated: a first `text/plain` part that decodes
to the empty string is not the tracked candidate - the guard is on Python
truthiness, so a later `text/plain` part overwrites it and its text is
what the call returns. -/
theorem extract_email_content_first_cex :
    extract_email_content (.multipart
      [⟨pstr "text/plain", [], some []⟩,
       ⟨pstr "text/plain", [], some (pstr "hello")⟩])
      = some (pstr "hello")
    ∧ some (pstr "hello") ≠ (some [] : Option (List Char)) := by
  decide

/-- C7 as amended: on a multipart message every part of whose successful
decodes is nonempty, the loop keeps the first decoded `text/plain` part
and the first decoded `text/html` part (parts whose decode raises are
skipped), and the call returns the plain-text candidate when one exists,
else the HTML candidate, else `None` - plain text wins over HTML whatever
the part order. -/
theorem extract_email_content_selection (parts : List MimePart)
    (hp : ∀ p ∈ parts, ∀ s, p.decodedText = some s → s ≠ []) :
    extract_email_content (.multipart parts)
      = orO (firstDecodedOf (pstr "text/plain") parts)
            (firstDecodedOf (pstr "text/html") parts) := by
  show (match scanContent parts none none with
    | (some t, _) => some t
    | (none, h) => h) = _
  rw [scanContent_spec parts none none hp
    (fun s hs => by cases hs) (fun s hs => by cases hs)]
  cases firstDecodedOf (pstr "text/plain") parts <;> rfl

/-- Witness for the amended C7: with nonempty decoded texts, the plain
part wins although the HTML part comes first. -/
theorem extract_email_content_selection_witness :
    extract_email_content (.multipart
      [⟨pstr "text/html", [], some (pstr "<p>page</p>")⟩,
       ⟨pstr "text/plain", [], some (pstr "text body")⟩])
      = some (pstr "text body") :=
  Eq.trans
    (extract_email_content_selection
      [⟨pstr "text/html", [], some (pstr "<p>page</p>")⟩,
       ⟨pstr "text/plain", [], some (pstr "text body")⟩]
      (by decide))
    (by decide)

/-- C10. The emptiness test of the selection loop is on truthiness, not
presence: a `text/plain` part whose decoded payload is the empty string
does not satisfy the `not text_content` guard, so a later part of the
same type overwrites it; and when the only `text/plain` part decodes to
the empty string, that empty string - not the HTML candidate - is what
the final `is not None` test returns. -/
theorem extract_email_content_truthiness (s htmlText : List Char) (b1 b2 b3 : List Nat) :
    extract_email_content (.multipart
      [⟨pstr "text/plain", b1, some []⟩, ⟨pstr "text/plain", b2, some s⟩])
      = some s
    ∧ extract_email_content (.multipart
      [⟨pstr "text/plain", b1, some []⟩, ⟨pstr "text/html", b3, some htmlText⟩])
      = some [] :=
  ⟨rfl, rfl⟩

/-- C8. On a multipart message whose first `text/calendar` part has
payload bytes that are not valid UTF-8, `extract_email_ics` returns the
error dictionary with its fixed message - a value, not a raised
exception - which is distinct from the absent result `None`; and a
non-multipart message yields absent whatever its content type, even
`text/calendar`. -/
theorem extract_email_ics_decode_error (pre post : List MimePart) (p : MimePart)
    (ct dec : List Char)
    (h1 : ∀ q ∈ pre, ¬ q.content_type = pstr "text/calendar")
    (h2 : p.content_type = pstr "text/calendar")
    (h3 : utf8Decode p.payload = none) :
    extract_email_ics (.multipart (pre ++ p :: post))
      = .decodeError (pstr "Error decoding .ics file content")
    ∧ IcsResult.decodeError (pstr "Error decoding .ics file content") ≠ IcsResult.absent
    ∧ extract_email_ics (.single ct dec) = .absent := by
  refine ⟨?_, ?_, ?_⟩
  · show scanCalendar (pre ++ p :: post) = _
    induction pre with
    | nil =>
      simp only [List.nil_append, scanCalendar]
      rw [if_pos h2, h3]
    | cons q pre ih =>
      rw [List.cons_append]
      simp only [scanCalendar]
      rw [if_neg (h1 q (List.mem_cons_self _ _))]
      exact ih fun r hr => h1 r (List.mem_cons_of_mem _ hr)
  · intro hx
    cases hx
  · rfl

/-- Witness for C8: one calendar part holding the single invalid byte
`0xFF`. -/
theorem extract_email_ics_decode_error_witness :
    extract_email_ics (.multipart [⟨pstr "text/calendar", [255], none⟩])
      = .decodeError (pstr "Error decoding .ics file content")
    ∧ IcsResult.decodeError (pstr "Error decoding .ics file content") ≠ IcsResult.absent
    ∧ extract_email_ics (.single (pstr "text/calendar") (pstr "BEGIN:VCALENDAR"))
      = .absent :=
  extract_email_ics_decode_error [] [] ⟨pstr "text/calendar", [255], none⟩
    (pstr "text/calendar") (pstr "BEGIN:VCALENDAR")
    (by intro q hq; cases hq) rfl (by decide)

/-! Lemmas for C9: the header decoder. -/

theorem mapM_decodeToken_eq_none (codec : List Char → List Nat → Option (List Char))
    (toks : List HeaderToken) (t : HeaderToken) (ht : t ∈ toks)
    (h : decodeToken codec t = none) :
    toks.mapM (decodeToken codec) = none := by
  induction toks with
  | nil => cases ht
  | cons x rest ih =>
    rw [List.mapM_cons]
    rcases List.mem_cons.mp ht with rfl | hmem
    · rw [h]
      rfl
    · cases hx : decodeToken codec x with
      | none => rfl
      | some y =>
        rw [ih hmem]
        rfl

/-- Counterexample to C9 as stated: the source decodes each encoded token
with `word.decode(charset or "utf-8")` - the declared charset, strictly,
with no exception handling - so a token whose charset the codec rejects
(Python: `LookupError` for an unrecognized charset) makes the whole call
raise instead of falling back to UTF-8 with substitution. The raising
codec is the model of `bytes.decode` on a header token declaring an
unknown charset. -/
theorem decode_mime_words_raises_cex :
    decode_mime_words (fun _ _ => none)
      [.encoded [97] (pstr "x-unknown-charset")] = none := by
  decide

/-- C9 as amended: `decode_mime_words` decodes every encoded token with
its declared charset directly and joins the results with single spaces;
when every token decodes the call succeeds with the joined text, and when
any token's decode raises (unknown charset or invalid bytes) the whole
call raises - there is no UTF-8/replacement fallback. -/
theorem decode_mime_words_no_fallback (codec : List Char → List Nat → Option (List Char))
    (toks : List HeaderToken) :
    (∀ rs, toks.mapM (decodeToken codec) = some rs →
        decode_mime_words codec toks = some (List.intercalate [' '] rs))
    ∧ (∀ t ∈ toks, decodeToken codec t = none →
        decode_mime_words codec toks = none) := by
  constructor
  · intro rs hrs
    unfold decode_mime_words
    rw [hrs]
    rfl
  · intro t ht h
    unfold decode_mime_words
    rw [mapM_decodeToken_eq_none codec toks t ht h]
    rfl

/-- Witness for the amended C9: a UTF-8-only codec on the spec's example
header tokens, and a failing token under the same codec. -/
theorem decode_mime_words_no_fallback_witness :
    decode_mime_words (fun cs b => if cs = pstr "utf-8" then utf8Decode b else none)
      [.plain (pstr "Hi"), .encoded [67, 97, 102, 195, 169] (pstr "utf-8")]
      = some (List.intercalate [' '] [pstr "Hi", pstr "Café"])
    ∧ decode_mime_words (fun cs b => if cs = pstr "utf-8" then utf8Decode b else none)
      [.encoded [67, 97, 102, 233] (pstr "x-mac-roman")] = none :=
  ⟨(decode_mime_words_no_fallback
      (fun cs b => if cs = pstr "utf-8" then utf8Decode b else none)
      [.plain (pstr "Hi"), .encoded [67, 97, 102, 195, 169] (pstr "utf-8")]).1
      [pstr "Hi", pstr "Café"] (by decide),
   (decode_mime_words_no_fallback
      (fun cs b => if cs = pstr "utf-8" then utf8Decode b else none)
      [.encoded [67, 97, 102, 233] (pstr "x-mac-roman")]).2
      (.encoded [67, 97, 102, 233] (pstr "x-mac-roman"))
      (List.mem_cons_self _ _) (by decide)⟩

end Lego
